import Mathlib

/-!
# Verification of the OpenGL-Examples repository

This file shallowly embeds the parts of the `progschj/OpenGL-Examples`
sources that the specification talks about and proves (or refutes) the
spec's claims about them.

Every example is a single `main()` following a copy-pasted pattern:
initialise the windowing library, compile a fixed sequence of shaders,
create buffer/texture/query objects, run a per-frame loop (poll events,
draw, check `glGetError` once, swap), then delete objects and return.

The embedding models `main` of each of the eleven example files
(`00skeleton.cpp`, `0skeleton.cpp`, `3texture.cpp`, `05fbo_fxaa.cpp`,
`07geometry_shader_blending.cpp`, `08map_buffer.cpp`,
`09transform_feedback.cpp`, `10queries_conditional_render.cpp`,
`11tesselation.cpp`, `12shader_image_load_store.cpp`,
`13compute_shader_nbody.cpp`) as a function of an environment that
supplies the results of the external graphics/window calls:
whether the library initialisations succeed, which shader compilations
and program links succeed, and the per-frame inputs (key state,
window-close state, and the value the single `glGetError` poll returns).
The result records the process exit code, the diagnostics printed to
standard error and standard output, whether the render loop was reached,
how many loop iterations ran, the sequence of graphics calls each
iteration issued, and (on the `return 0` path) which GPU object handles
were created and deleted.

Numeric GLSL / C++ `float` arithmetic is modelled over `ℚ` (or an
arbitrary field), with the square root inside `length` abstracted as a
function parameter; order of operations is kept exactly as in the source.
-/

namespace OpenGLExamples

/-- A diagnostic message an example prints.  `initFail s` is an
initialisation-failure message (`std::cerr << s`), `shaderLog i` the info
log of shader number `i` printed by `check_shader_compile_status`,
`programLog p` the info log of program number `p` printed by
`check_program_link_status`, and `glError e` the error value printed when
the render loop's `glGetError` returns `e ≠ GL_NO_ERROR`. -/
inductive Msg : Type
| initFail (s : String)
| shaderLog (i : Nat)
| programLog (p : Nat)
| glError (e : Nat)
deriving DecidableEq, Repr

/-- A graphics/window call issued by a render-loop iteration, at the
granularity the spec's claims need.  `poll` is `glfwPollEvents` (GLFW 3),
`swap` is `glfwSwapBuffers`, `getError` is `glGetError`, `queryWait` is
`glGetQueryObjectui64v(…, GL_QUERY_RESULT, …)` — which, by the OpenGL
specification, does not return until the query result is available, i.e.
it waits on the GPU — and `call name` is any other graphics call (none of
which blocks the calling thread). -/
inductive Ev : Type
| poll
| swap
| getError
| queryWait
| call (name : String)
deriving DecidableEq, Repr

/-- Whether a call can block the calling thread: the event poll, the
presentation swap, and reading a query-object result with
`GL_QUERY_RESULT`. -/
def Ev.blocks : Ev → Bool
| .poll => true
| .swap => true
| .queryWait => true
| .getError => false
| .call _ => false

/-- Whether a call waits on a GPU query result
(`glGetQueryObjectui64v` with `GL_QUERY_RESULT`). -/
def Ev.waitsOnQueryResult : Ev → Bool
| .queryWait => true
| _ => false

/-- The number of `glGetError` polls in a list of calls. -/
def countGetError (evs : List Ev) : Nat :=
  evs.countP (fun e => e = Ev.getError)

/-- The externally supplied inputs of one render-loop iteration:
`shouldClose` is what `glfwWindowShouldClose` returns at the top of a
GLFW 3 loop, `esc` whether `glfwGetKey(GLFW_KEY_ESC)` reports the escape
key down (GLFW 2 examples), `closed` whether the GLFW 2 window-close
callback fired this iteration, `space` whether `glfwGetKey` reports the
space key down (its value is cached by GLFW and can only change inside
the event poll, so both reads in one iteration agree), `queryAvail` what
`glIsQuery(queries[(current_query+1)%querycount])` returns in
`10queries_conditional_render.cpp`, and `glError` the value the
iteration's single `glGetError` call returns (`0` is `GL_NO_ERROR`). -/
structure Frame : Type where
  shouldClose : Bool
  esc : Bool
  closed : Bool
  space : Bool
  queryAvail : Bool
  glError : Nat
deriving DecidableEq, Repr

/-- A frame with no input and no error. -/
def quietFrame : Frame := ⟨false, false, false, false, false, 0⟩

/-- The environment of one run of an example's `main`: results of the
external calls it makes.  `compileOk i` is the `GL_COMPILE_STATUS` of the
`i`-th shader the example compiles (in source order, starting at `0`),
`linkOk p` the `GL_LINK_STATUS` of the `p`-th program it links. -/
structure Env : Type where
  glfwInitOk : Bool
  windowOk : Bool
  loaderOk : Bool
  extOk : Bool
  compileOk : Nat → Bool
  linkOk : Nat → Bool
  frames : List Frame

/-- One step of the shader-setup phase of an example's `main`.
`compile i` stands for the source block
`glCreateShader; glShaderSource; glCompileShader;
if(!check_shader_compile_status(shader)) { cleanup; return 1; }`
(every compile-check call site in the repository early-returns 1 on
failure), and `link p` stands for
`glCreateProgram; glAttachShader…; glLinkProgram;
check_program_link_status(program);`
(every link-check call site in the repository discards the returned
status). -/
inductive SetupStep : Type
| compile (i : Nat)
| link (p : Nat)
deriving DecidableEq, Repr

/-- Result of the shader-setup phase: `failed = some i` when the compile
check of shader `i` returned false and `main` returned 1 there; `msgs`
the diagnostics written to `std::cerr` by the status-check helpers. -/
structure SetupResult : Type where
  failed : Option Nat
  msgs : List Msg
deriving DecidableEq, Repr

/-- Run the shader-setup phase: compile checks are fatal
(`if(!check_shader_compile_status(…)) { …; return 1; }`), link checks
print the info log but their result is discarded
(`check_program_link_status(…);`). -/
def runSetup (env : Env) : List SetupStep → SetupResult
| [] => ⟨none, []⟩
| SetupStep.compile i :: rest =>
    if env.compileOk i then runSetup env rest
    else ⟨some i, [Msg.shaderLog i]⟩
| SetupStep.link p :: rest =>
    let r := runSetup env rest
    if env.linkOk p then r
    else ⟨r.failed, Msg.programLog p :: r.msgs⟩

/-- The result of one run of an example's `main`.  `createdOnExit` and
`deletedOnExit` list the GPU object handles created and deleted on the
`return 0` path (they are only tracked on that path; every early return
happens before buffer/texture/query creation). -/
structure MainResult : Type where
  exit : Nat
  stderr : List Msg
  stdout : List Msg
  enteredLoop : Bool
  framesRun : Nat
  frameTraces : List (List Ev)
  createdOnExit : List String
  deletedOnExit : List String
deriving DecidableEq, Repr

/-- An early `return 1` before the render loop, with its `std::cerr`
output. -/
def earlyExit (ms : List Msg) : MainResult :=
  ⟨1, ms, [], false, 0, [], [], []⟩

/-- What the render loop produced: iterations run, the calls of each
iteration, and the error diagnostics printed. -/
structure LoopResult : Type where
  framesRun : Nat
  traces : List (List Ev)
  msgs : List Msg
deriving DecidableEq, Repr

/-- The GLFW 3 render loop
`while(!glfwWindowShouldClose(window)) { … glfwPollEvents(); …;
GLenum error = glGetError(); if(error != GL_NO_ERROR) { std::cerr <<
error << std::endl; break; } glfwSwapBuffers(window); }`:
the close flag is tested at the top, and a nonzero `glGetError` value is
printed and `break`s out of the loop.  The finite `frames` list is the
observation window; running out of frames models the window closing. -/
def loop3 (body : Frame → List Ev) : List Frame → LoopResult
| [] => ⟨0, [], []⟩
| f :: rest =>
    if f.shouldClose then ⟨0, [], []⟩
    else
      let evs := body f
      if f.glError ≠ 0 then ⟨1, [evs], [Msg.glError f.glError]⟩
      else
        let r := loop3 body rest
        ⟨r.framesRun + 1, evs :: r.traces, r.msgs⟩

/-- The GLFW 2 render loop `while(running) { … }` of the skeletons,
`3texture.cpp` and `12shader_image_load_store.cpp`: `running` is cleared
by the escape key, the window-close callback, or a nonzero `glGetError`
value (which is also printed); the iteration still completes (the final
`glfwSwapBuffers` runs) and the loop exits at the next top-of-loop
test. -/
def loop2 (body : Frame → List Ev) : List Frame → LoopResult
| [] => ⟨0, [], []⟩
| f :: rest =>
    let evs := body f
    let ms : List Msg := if f.glError ≠ 0 then [Msg.glError f.glError] else []
    if f.esc || f.closed || f.glError ≠ 0 then ⟨1, [evs], ms⟩
    else
      let r := loop2 body rest
      ⟨r.framesRun + 1, evs :: r.traces, ms ++ r.msgs⟩

/-- Assemble the `return 0` path of a `main`: the render loop was
reached; `std::cerr` carries first the link logs of the setup phase and
then the render loop's error prints. -/
def finishRun (setupMsgs : List Msg) (lr : LoopResult)
    (created deleted : List String) : MainResult :=
  ⟨0, setupMsgs ++ lr.msgs, [], true, lr.framesRun, lr.traces, created, deleted⟩

/-- The space-key feature-toggle lines shared verbatim by
`05fbo_fxaa.cpp` (fxaa), `10queries_conditional_render.cpp`
(occlusion culling), `11tesselation.cpp` (tessellation) and
`13compute_shader_nbody.cpp` (tiled kernel):

    if(glfwGetKey(window, GLFW_KEY_SPACE) && !space_down) {
        flag = !flag;
    }
    space_down = glfwGetKey(window, GLFW_KEY_SPACE);

State is `(flag, space_down)`; `space` is the key state GLFW reports this
iteration (both reads agree, the cached state changes only inside the
event poll). -/
def spaceToggleStep (space : Bool) (st : Bool × Bool) : Bool × Bool :=
  let flag := if space && !st.2 then !st.1 else st.1
  (flag, space)

/-! ## The eleven example `main` functions

The GLFW 3 examples share this `main` shape verbatim (the repository
copy-pastes it): check `glfwInit`, `glfwCreateWindow` and `glxwInit`
(printing a message and returning 1 on failure), run the shader-setup
sequence, then the render loop, then delete objects and return 0. -/

/-- The common `main` shape of the GLFW 3 examples
(`05`, `07`, `08`, `09`, `10`, `11`, `13`). -/
def glfw3Main (steps : List SetupStep) (body : Frame → List Ev)
    (created deleted : List String) (env : Env) : MainResult :=
  if env.glfwInitOk = false then earlyExit [Msg.initFail "failed to init GLFW"]
  else if env.windowOk = false then earlyExit [Msg.initFail "failed to open window"]
  else if env.loaderOk = false then earlyExit [Msg.initFail "failed to init GL3W"]
  else
    let s := runSetup env steps
    match s.failed with
    | some _ => ⟨1, s.msgs, [], false, 0, [], [], []⟩
    | none => finishRun s.msgs (loop3 body env.frames) created deleted

/-- The common `main` shape of `0skeleton.cpp` and `3texture.cpp`:
`glfwInit()` and `glfwOpenWindow(…)` are called but their return values
are not checked; only the GLEW initialisation failure is checked. -/
def glewMain (steps : List SetupStep) (body : Frame → List Ev)
    (created deleted : List String) (env : Env) : MainResult :=
  if env.loaderOk = false then earlyExit [Msg.initFail "failed to init GLEW"]
  else
    let s := runSetup env steps
    match s.failed with
    | some _ => ⟨1, s.msgs, [], false, 0, [], [], []⟩
    | none => finishRun s.msgs (loop2 body env.frames) created deleted

/-- Loop body of `00skeleton.cpp` and `0skeleton.cpp`: escape-key check,
(no drawing), one `glGetError`, unconditional `glfwSwapBuffers`. -/
def bodySkeleton (_f : Frame) : List Ev :=
  [Ev.call "glfwGetKey(GLFW_KEY_ESC)", Ev.getError, Ev.swap]

/-- Embedding of `main` from `src/00skeleton.cpp`: full initialisation
checks (`glfwInit`, `glfwOpenWindow`, `gl3wInit`), no shaders, GLFW 2
style loop, no objects created. -/
def main00skeleton (env : Env) : MainResult :=
  if env.glfwInitOk = false then earlyExit [Msg.initFail "failed to init GLFW"]
  else if env.windowOk = false then earlyExit [Msg.initFail "failed to open window"]
  else if env.loaderOk = false then earlyExit [Msg.initFail "failed to init GL3W"]
  else finishRun [] (loop2 bodySkeleton env.frames) [] []

/-- Embedding of `main` from `src/0skeleton.cpp`: `glfwInit()` and
`glfwOpenWindow(…)` results unchecked, only `glewInit` checked. -/
def main0skeleton (env : Env) : MainResult :=
  glewMain [] bodySkeleton [] [] env

/-- Shader-setup sequence of `src/3texture.cpp`: vertex shader (0),
fragment shader (1), program 0. -/
def steps3texture : List SetupStep :=
  [.compile 0, .compile 1, .link 0]

/-- Handles created by `src/3texture.cpp` on the `return 0` path. -/
def created3texture : List String :=
  ["vertex_shader", "fragment_shader", "shader_program",
   "vao", "vbo", "ibo", "texture"]

/-- Handles deleted by `src/3texture.cpp`: the file has no
`glDelete*` call at all. -/
def deleted3texture : List String := []

/-- Loop body of `src/3texture.cpp`. -/
def body3texture (_f : Frame) : List Ev :=
  [Ev.call "glfwGetKey(GLFW_KEY_ESC)", Ev.call "glClear",
   Ev.call "glUseProgram", Ev.call "glActiveTexture",
   Ev.call "glBindTexture", Ev.call "glUniform1i",
   Ev.call "glBindVertexArray", Ev.call "glDrawElements",
   Ev.getError, Ev.swap]

/-- Embedding of `main` from `src/3texture.cpp`. -/
def main3texture (env : Env) : MainResult :=
  glewMain steps3texture body3texture created3texture deleted3texture env

/-- Shader-setup sequence of `src/05fbo_fxaa.cpp`: vertex (0) and
fragment (1) shaders and program 0, then the post-effect vertex (2) and
fragment (3) shaders and program 1. -/
def steps05 : List SetupStep :=
  [.compile 0, .compile 1, .link 0, .compile 2, .compile 3, .link 1]

/-- Handles created by `src/05fbo_fxaa.cpp` on the `return 0` path. -/
def created05 : List String :=
  ["vertex_shader", "fragment_shader", "shader_program",
   "vao", "vbo", "ibo",
   "post_effect_vertex_shader", "post_effect_fragment_shader",
   "post_effect_shader_program",
   "post_effect_vao", "post_effect_vbo", "post_effect_ibo",
   "texture", "rbf", "fbo"]

/-- Handles deleted by `src/05fbo_fxaa.cpp` (lines 681-699): the
framebuffer texture, renderbuffer and framebuffer object are not
deleted. -/
def deleted05 : List String :=
  ["vao", "vbo", "ibo",
   "vertex_shader", "fragment_shader", "shader_program",
   "post_effect_vao", "post_effect_vbo", "post_effect_ibo",
   "post_effect_vertex_shader", "post_effect_fragment_shader",
   "post_effect_shader_program"]

/-- Loop body of `src/05fbo_fxaa.cpp` (calls of the fxaa-enabled path;
the fxaa toggle only changes which non-blocking draw calls run). -/
def body05 (f : Frame) : List Ev :=
  [Ev.poll,
   Ev.call "glfwGetKey(GLFW_KEY_SPACE)", Ev.call "glfwGetKey(GLFW_KEY_SPACE)",
   Ev.call "glEnable(GL_DEPTH_TEST)", Ev.call "glBindFramebuffer",
   Ev.call "glClear", Ev.call "glUseProgram",
   Ev.call "glUniformMatrix4fv", Ev.call "glBindVertexArray",
   Ev.call "glDrawElements",
   Ev.call "glBindFramebuffer", Ev.call "glDisable(GL_DEPTH_TEST)",
   Ev.call "glUseProgram", Ev.call "glActiveTexture",
   Ev.call "glBindTexture", Ev.call "glUniform1i",
   Ev.call "glBindVertexArray", Ev.call "glDrawElements",
   Ev.getError] ++ (if f.glError = 0 then [Ev.swap] else [])

/-- Embedding of `main` from `src/05fbo_fxaa.cpp`. -/
def main05 (env : Env) : MainResult :=
  glfw3Main steps05 body05 created05 deleted05 env

/-- Shader-setup sequence of `src/07geometry_shader_blending.cpp`. -/
def steps07 : List SetupStep :=
  [.compile 0, .compile 1, .compile 2, .link 0]

/-- Handles created by `src/07geometry_shader_blending.cpp`. -/
def created07 : List String :=
  ["vertex_shader", "geometry_shader", "fragment_shader",
   "shader_program", "vao", "vbo"]

/-- Handles deleted by `src/07geometry_shader_blending.cpp`
(lines 283-292): all of them. -/
def deleted07 : List String :=
  ["vao", "vbo", "vertex_shader", "geometry_shader", "fragment_shader",
   "shader_program"]

/-- Loop body of `src/07geometry_shader_blending.cpp`. -/
def body07 (f : Frame) : List Ev :=
  [Ev.poll, Ev.call "glfwGetTime", Ev.call "glClear",
   Ev.call "glUseProgram", Ev.call "glUniformMatrix4fv",
   Ev.call "glUniformMatrix4fv", Ev.call "glBindVertexArray",
   Ev.call "glDrawArrays",
   Ev.getError] ++ (if f.glError = 0 then [Ev.swap] else [])

/-- Embedding of `main` from `src/07geometry_shader_blending.cpp`. -/
def main07 (env : Env) : MainResult :=
  glfw3Main steps07 body07 created07 deleted07 env

/-- Shader-setup sequence of `src/08map_buffer.cpp`. -/
def steps08 : List SetupStep :=
  [.compile 0, .compile 1, .compile 2, .link 0]

/-- Handles created by `src/08map_buffer.cpp` (triple-buffered vaos and
vbos, index 0..2). -/
def created08 : List String :=
  ["vertex_shader", "geometry_shader", "fragment_shader", "shader_program",
   "vao[0]", "vao[1]", "vao[2]", "vbo[0]", "vbo[1]", "vbo[2]"]

/-- Handles deleted by `src/08map_buffer.cpp` (lines 336-346): all. -/
def deleted08 : List String :=
  ["vao[0]", "vao[1]", "vao[2]", "vbo[0]", "vbo[1]", "vbo[2]",
   "vertex_shader", "geometry_shader", "fragment_shader", "shader_program"]

/-- Loop body of `src/08map_buffer.cpp`: CPU physics update, buffer
orphan + map + copy + unmap, draw.  `glMapBufferRange` is called with
`GL_MAP_WRITE_BIT | GL_MAP_INVALIDATE_BUFFER_BIT` on a just-orphaned
buffer and does not wait on the GPU. -/
def body08 (f : Frame) : List Ev :=
  [Ev.poll, Ev.call "glfwGetTime", Ev.call "cpu physics update",
   Ev.call "glBindBuffer", Ev.call "glBufferData",
   Ev.call "glMapBufferRange", Ev.call "std::copy", Ev.call "glUnmapBuffer",
   Ev.call "glClear", Ev.call "glUseProgram",
   Ev.call "glUniformMatrix4fv", Ev.call "glUniformMatrix4fv",
   Ev.call "glBindVertexArray", Ev.call "glDrawArrays",
   Ev.getError] ++ (if f.glError = 0 then [Ev.swap] else [])

/-- Embedding of `main` from `src/08map_buffer.cpp`. -/
def main08 (env : Env) : MainResult :=
  glfw3Main steps08 body08 created08 deleted08 env

/-- Shader-setup sequence of `src/09transform_feedback.cpp`: render
shaders (0,1,2) and program 0, then the transform-feedback vertex
shader (3) and program 1. -/
def steps09 : List SetupStep :=
  [.compile 0, .compile 1, .compile 2, .link 0, .compile 3, .link 1]

/-- Handles created by `src/09transform_feedback.cpp`. -/
def created09 : List String :=
  ["vertex_shader", "geometry_shader", "fragment_shader", "shader_program",
   "transform_vertex_shader", "transform_shader_program",
   "vao[0]", "vao[1]", "vao[2]", "vbo[0]", "vbo[1]", "vbo[2]"]

/-- Handles deleted by `src/09transform_feedback.cpp`
(lines 407-420): all. -/
def deleted09 : List String :=
  ["vao[0]", "vao[1]", "vao[2]", "vbo[0]", "vbo[1]", "vbo[2]",
   "vertex_shader", "geometry_shader", "fragment_shader", "shader_program",
   "transform_vertex_shader", "transform_shader_program"]

/-- Loop body of `src/09transform_feedback.cpp`: transform-feedback
pass, then draw pass. -/
def body09 (f : Frame) : List Ev :=
  [Ev.poll, Ev.call "glfwGetTime", Ev.call "glUseProgram",
   Ev.call "glUniform*", Ev.call "glBindVertexArray",
   Ev.call "glBindBufferBase", Ev.call "glEnable(GL_RASTERIZER_DISCARD)",
   Ev.call "glBeginTransformFeedback", Ev.call "glDrawArrays",
   Ev.call "glEndTransformFeedback", Ev.call "glDisable(GL_RASTERIZER_DISCARD)",
   Ev.call "glClear", Ev.call "glUseProgram",
   Ev.call "glUniformMatrix4fv", Ev.call "glUniformMatrix4fv",
   Ev.call "glBindVertexArray", Ev.call "glDrawArrays",
   Ev.getError] ++ (if f.glError = 0 then [Ev.swap] else [])

/-- Embedding of `main` from `src/09transform_feedback.cpp`. -/
def main09 (env : Env) : MainResult :=
  glfw3Main steps09 body09 created09 deleted09 env

/-- Shader-setup sequence of `src/10queries_conditional_render.cpp`:
draw shaders (0,1) and program 0, then query shaders (2,3) and
program 1. -/
def steps10 : List SetupStep :=
  [.compile 0, .compile 1, .link 0, .compile 2, .compile 3, .link 1]

/-- Handles created by `src/10queries_conditional_render.cpp`.  Every
chunk is created by the same loop body, so the per-chunk handles
(`chunk.vao`, `chunk.vbo`, `chunk.ibo`, `chunk.bounding_vao`,
`chunk.bounding_vbo`, `chunk.bounding_ibo`, `chunk.query`) stand for the
handles of each chunk uniformly. -/
def created10 : List String :=
  ["vertex_shader", "fragment_shader", "shader_program",
   "query_vertex_shader", "query_fragment_shader", "query_shader_program",
   "chunk.vao", "chunk.vbo", "chunk.ibo",
   "chunk.bounding_vao", "chunk.bounding_vbo", "chunk.bounding_ibo",
   "chunk.query", "queries"]

/-- Handles deleted by `src/10queries_conditional_render.cpp`
(lines 633-655): all, per chunk and global. -/
def deleted10 : List String :=
  ["chunk.vao", "chunk.vbo", "chunk.ibo",
   "chunk.bounding_vao", "chunk.bounding_vbo", "chunk.bounding_ibo",
   "chunk.query", "queries",
   "vertex_shader", "fragment_shader", "shader_program",
   "query_vertex_shader", "query_fragment_shader", "query_shader_program"]

/-- Loop body of `src/10queries_conditional_render.cpp`: camera input,
chunk peeling with occlusion queries and conditional renders (all
non-blocking for the CPU), a timer query, and — when
`glIsQuery(queries[(current_query+1)%querycount])` is true — a read of
that timer query's result with `GL_QUERY_RESULT`, which waits until the
result is available. -/
def body10 (f : Frame) : List Ev :=
  [Ev.poll, Ev.call "glfwGetTime", Ev.call "glfwGetCursorPos",
   Ev.call "glfwGetKey(movement)",
   Ev.call "glfwGetKey(GLFW_KEY_SPACE)", Ev.call "glfwGetKey(GLFW_KEY_SPACE)",
   Ev.call "glUseProgram", Ev.call "glUniformMatrix4fv",
   Ev.call "glUseProgram", Ev.call "glUniformMatrix4fv",
   Ev.call "glClearColor", Ev.call "glClear", Ev.call "std::sort",
   Ev.call "glBeginQuery(GL_TIME_ELAPSED)",
   Ev.call "chunk peeling: occlusion queries and conditional draws",
   Ev.call "glEndQuery(GL_TIME_ELAPSED)"] ++
  (if f.queryAvail then [Ev.queryWait] else []) ++
  [Ev.getError] ++ (if f.glError = 0 then [Ev.swap] else [])

/-- Embedding of `main` from `src/10queries_conditional_render.cpp`. -/
def main10 (env : Env) : MainResult :=
  glfw3Main steps10 body10 created10 deleted10 env

/-- Shader-setup sequence of `src/11tesselation.cpp`: vertex (0),
tessellation control (1), tessellation evaluation (2), fragment (3)
shaders and program 0. -/
def steps11 : List SetupStep :=
  [.compile 0, .compile 1, .compile 2, .compile 3, .link 0]

/-- Handles created by `src/11tesselation.cpp`. -/
def created11 : List String :=
  ["vao", "vertex_shader", "tess_control_shader", "tess_eval_shader",
   "fragment_shader", "shader_program", "displacement"]

/-- Handles deleted by `src/11tesselation.cpp` (lines 404-413): the
`displacement` texture is not deleted. -/
def deleted11 : List String :=
  ["vao", "vertex_shader", "tess_control_shader", "tess_eval_shader",
   "fragment_shader", "shader_program"]

/-- Loop body of `src/11tesselation.cpp`. -/
def body11 (f : Frame) : List Ev :=
  [Ev.poll, Ev.call "glfwGetTime", Ev.call "glfwGetCursorPos",
   Ev.call "glfwGetKey(movement)",
   Ev.call "glfwGetKey(GLFW_KEY_SPACE)", Ev.call "glfwGetKey(GLFW_KEY_SPACE)",
   Ev.call "glClear", Ev.call "glActiveTexture", Ev.call "glBindTexture",
   Ev.call "glUseProgram", Ev.call "glUniform*",
   Ev.call "glDrawArraysInstanced",
   Ev.getError] ++ (if f.glError = 0 then [Ev.swap] else [])

/-- Embedding of `main` from `src/11tesselation.cpp`. -/
def main11 (env : Env) : MainResult :=
  glfw3Main steps11 body11 created11 deleted11 env

/-- Shader-setup sequence of `src/12shader_image_load_store.cpp`:
vertex (0), fragment1 (1), fragment2 (2) shaders; program 0
(vertex+fragment1) and program 1 (vertex+fragment2). -/
def steps12 : List SetupStep :=
  [.compile 0, .compile 1, .compile 2, .link 0, .link 1]

/-- Handles created by `src/12shader_image_load_store.cpp`. -/
def created12 : List String :=
  ["vertex_shader", "fragment1_shader", "fragment2_shader",
   "shader1_program", "shader2_program", "vao", "vbo", "ibo", "texture"]

/-- Handles deleted by `src/12shader_image_load_store.cpp`
(lines 405-419): all. -/
def deleted12 : List String :=
  ["texture", "vao", "vbo", "ibo",
   "vertex_shader", "fragment1_shader", "shader1_program",
   "fragment2_shader", "shader2_program"]

/-- Loop body of `src/12shader_image_load_store.cpp` (GLFW 2 style:
the final swap is unconditional). -/
def body12 (_f : Frame) : List Ev :=
  [Ev.call "glfwGetKey(GLFW_KEY_ESC)", Ev.call "glClear",
   Ev.call "glBindImageTextureEXT", Ev.call "glBindVertexArray",
   Ev.call "glUseProgram", Ev.call "glUniform*",
   Ev.call "substep draw loop (glDrawElements)",
   Ev.getError, Ev.swap]

/-- Embedding of `main` from `src/12shader_image_load_store.cpp`:
`glfwInit()` and `glfwOpenWindow(…)` results unchecked; `glewInit` and
the `GL_ARB_shader_image_load_store` extension are checked (the missing
extension is reported on `std::cout`). -/
def main12 (env : Env) : MainResult :=
  if env.loaderOk = false then earlyExit [Msg.initFail "failed to init GLEW"]
  else if env.extOk = false then
    ⟨1, [], [Msg.initFail "GL_ARB_shader_image_load_store not available"],
     false, 0, [], [], []⟩
  else
    let s := runSetup env steps12
    match s.failed with
    | some _ => ⟨1, s.msgs, [], false, 0, [], [], []⟩
    | none => finishRun s.msgs (loop2 body12 env.frames) created12 deleted12

/-- Shader-setup sequence of `src/13compute_shader_nbody.cpp`:
vertex (0), geometry (1), fragment (2) shaders and program 0; the
acceleration compute shader (3) and program 1; the tiled acceleration
compute shader (4) and program 2; the integrate compute shader (5) and
program 3. -/
def steps13 : List SetupStep :=
  [.compile 0, .compile 1, .compile 2, .link 0,
   .compile 3, .link 1, .compile 4, .link 2, .compile 5, .link 3]

/-- Handles created by `src/13compute_shader_nbody.cpp`. -/
def created13 : List String :=
  ["vertex_shader", "geometry_shader", "fragment_shader", "shader_program",
   "acceleration_shader", "acceleration_program",
   "tiled_acceleration_shader", "tiled_acceleration_program",
   "integrate_shader", "integrate_program",
   "vao", "positions_vbo", "velocities_vbo", "query"]

/-- Handles deleted by `src/13compute_shader_nbody.cpp`
(lines 467-485): the tiled acceleration shader and program, the
integrate shader and program, and the timer query are not deleted. -/
def deleted13 : List String :=
  ["vao", "positions_vbo", "velocities_vbo",
   "vertex_shader", "geometry_shader", "fragment_shader", "shader_program",
   "acceleration_shader", "acceleration_program"]

/-- Loop body of `src/13compute_shader_nbody.cpp`: compute dispatches
inside a timer query, the draw pass, the error check, the swap, and then
an unconditional read of this frame's timer-query result with
`GL_QUERY_RESULT`, which waits until the GPU has finished the query. -/
def body13 (f : Frame) : List Ev :=
  [Ev.poll,
   Ev.call "glfwGetKey(GLFW_KEY_SPACE)", Ev.call "glfwGetKey(GLFW_KEY_SPACE)",
   Ev.call "glBeginQuery(GL_TIME_ELAPSED)", Ev.call "glUseProgram",
   Ev.call "glDispatchCompute", Ev.call "glEndQuery(GL_TIME_ELAPSED)",
   Ev.call "glUseProgram", Ev.call "glDispatchCompute",
   Ev.call "glClear", Ev.call "glUseProgram",
   Ev.call "glUniformMatrix4fv", Ev.call "glUniformMatrix4fv",
   Ev.call "glBindVertexArray", Ev.call "glDrawArrays",
   Ev.getError] ++ (if f.glError = 0 then [Ev.swap, Ev.queryWait] else [])

/-- Embedding of `main` from `src/13compute_shader_nbody.cpp`. -/
def main13 (env : Env) : MainResult :=
  glfw3Main steps13 body13 created13 deleted13 env

/-! ## GLSL numeric model

GLSL `vec3`/`vec4` values over a field `R` (the real-number reading of
the shader `float` arithmetic; the square root inside `length` is kept
abstract as a function parameter, every other operation and its order is
exactly the source's). -/

/-- A GLSL `vec3` over `R`. -/
structure Vec3 (R : Type) : Type where
  x : R
  y : R
  z : R
deriving DecidableEq, Repr

/-- A GLSL `vec4` over `R`. -/
structure Vec4 (R : Type) : Type where
  x : R
  y : R
  z : R
  w : R
deriving DecidableEq, Repr

/-- The `.xyz` swizzle. -/
def Vec4.xyz {R : Type} (v : Vec4 R) : Vec3 R := ⟨v.x, v.y, v.z⟩

/-- Componentwise vector addition. -/
def vadd {R : Type} [Add R] (a b : Vec3 R) : Vec3 R :=
  ⟨a.x + b.x, a.y + b.y, a.z + b.z⟩

/-- Componentwise vector subtraction. -/
def vsub {R : Type} [Sub R] (a b : Vec3 R) : Vec3 R :=
  ⟨a.x - b.x, a.y - b.y, a.z - b.z⟩

/-- Scalar times vector (`s * v`). -/
def smul {R : Type} [Mul R] (c : R) (v : Vec3 R) : Vec3 R :=
  ⟨c * v.x, c * v.y, c * v.z⟩

/-- Vector times scalar (`v * s`). -/
def vscale {R : Type} [Mul R] (v : Vec3 R) (c : R) : Vec3 R :=
  ⟨v.x * c, v.y * c, v.z * c⟩

/-- Vector divided componentwise by a scalar (`v / s`). -/
def vdiv {R : Type} [Div R] (v : Vec3 R) (c : R) : Vec3 R :=
  ⟨v.x / c, v.y / c, v.z / c⟩

/-- The dot product `glm::dot` / GLSL `dot`. -/
def vdot {R : Type} [Add R] [Mul R] (a b : Vec3 R) : R :=
  a.x * b.x + a.y * b.y + a.z * b.z

/-! ### The two N-body compute kernels of `13compute_shader_nbody.cpp`

Both kernels read the whole `positions` buffer and write
`velocities[index]`; `positions` is not written by either, so it is
constant during a dispatch.  `len` abstracts GLSL `length` (the square
root); every other operation is transcribed in source order. -/

/-- The shared loop body of both kernels
(`acceleration_source` lines 197-201, `tiled_acceleration_source`
lines 255-259):

    vec3 diff = position - other;
    float invdist = 1.0/(length(diff)+0.001);
    acceleration -= diff*0.1*invdist*invdist*invdist;
-/
def accelStep {R : Type} [Field R] (len : Vec3 R → R)
    (position acc other : Vec3 R) : Vec3 R :=
  let diff := vsub position other
  let invdist := 1 / (len diff + 1/1000)
  vsub acc (vscale (vscale (vscale (vscale diff (1/10)) invdist) invdist) invdist)

/-- The straightforward N-body kernel (`acceleration_source`,
`src/13compute_shader_nbody.cpp` lines 186-208): one invocation `index`
of a dispatch of `numWorkGroups` workgroups of local size 256.  Returns
the `vec4` written to `velocities[index]`. -/
def acceleration_kernel {R : Type} [Field R] (len : Vec3 R → R)
    (numWorkGroups : Nat) (dt : R) (positions velocities : Nat → Vec4 R)
    (index : Nat) : Vec4 R :=
  let N := numWorkGroups * 256
  let position := (positions index).xyz
  let velocity := (velocities index).xyz
  let acceleration := (List.range N).foldl
    (fun acc i => accelStep len position acc (positions i).xyz) ⟨0, 0, 0⟩
  let v := vadd velocity (smul dt acceleration)
  ⟨v.x, v.y, v.z, 0⟩

/-- The tile loop of the tiled kernel
(`tiled_acceleration_source` lines 252-262):
`for(int tile = 0;tile<N;tile+=int(gl_WorkGroupSize.x))`, where each
iteration loads `tmp[l] = positions[tile + l]` into shared memory
(barriers separate the load, the use, and the next overwrite) and then
accumulates `tmp[0..255]`. -/
def tileLoop {R : Type} [Field R] (len : Vec3 R → R) (position : Vec3 R)
    (positions : Nat → Vec4 R) (N : Nat) (tile : Nat) (acc : Vec3 R) : Vec3 R :=
  if _h : tile < N then
    let tmp : Nat → Vec4 R := fun l => positions (tile + l)
    let acc1 := (List.range 256).foldl
      (fun a i => accelStep len position a (tmp i).xyz) acc
    tileLoop len position positions N (tile + 256) acc1
  else acc
termination_by N - tile
decreasing_by omega

/-- The tiled N-body kernel (`tiled_acceleration_source`,
`src/13compute_shader_nbody.cpp` lines 237-266): one invocation `index`.
Returns the `vec4` written to `velocities[index]`. -/
def tiled_acceleration_kernel {R : Type} [Field R] (len : Vec3 R → R)
    (numWorkGroups : Nat) (dt : R) (positions velocities : Nat → Vec4 R)
    (index : Nat) : Vec4 R :=
  let N := numWorkGroups * 256
  let position := (positions index).xyz
  let velocity := (velocities index).xyz
  let acceleration := tileLoop len position positions N 0 ⟨0, 0, 0⟩
  let v := vadd velocity (smul dt acceleration)
  ⟨v.x, v.y, v.z, 0⟩

/-! ### The CPU particle physics of `08map_buffer.cpp` -/

/-- A particle of `08map_buffer.cpp`: position `vertexData[i]` and
velocity `velocity[i]`, modelled over `ℚ`. -/
structure Particle : Type where
  pos : Vec3 ℚ
  vel : Vec3 ℚ
deriving DecidableEq, Repr

/-- The three sphere centres of `src/08map_buffer.cpp` lines 227-233. -/
def sphereCenter : Fin 3 → Vec3 ℚ
| 0 => ⟨0, 12, 1⟩
| 1 => ⟨-3, 0, 0⟩
| 2 => ⟨5, -10, 0⟩

/-- The three sphere radii (3, 7, 12). -/
def sphereRadius : Fin 3 → ℚ
| 0 => 3
| 1 => 7
| 2 => 12

/-- The timestep `dt = 1.0f/60.0f`. -/
def dt08 : ℚ := 1 / 60

/-- The gravity `g = (0.0f, -9.81f, 0.0f)`. -/
def g08 : Vec3 ℚ := ⟨0, -981/100, 0⟩

/-- The restitution factor `bounce = 1.2f`. -/
def bounce08 : ℚ := 12 / 10

/-- One sphere-collision resolution step
(`src/08map_buffer.cpp` lines 254-259):

    glm::vec3 diff = vertexData[i]-center[j];
    float dist = glm::length(diff);
    if(dist<radius[j] && glm::dot(diff, velocity[i])<0.0f)
        velocity[i] -= bounce*diff/(dist*dist)*glm::dot(diff, velocity[i]);

`len` abstracts `glm::length` (a square root). -/
def collideSphere (len : Vec3 ℚ → ℚ) (pos : Vec3 ℚ) (j : Fin 3)
    (vel : Vec3 ℚ) : Vec3 ℚ :=
  let diff := vsub pos (sphereCenter j)
  let dist := len diff
  if dist < sphereRadius j ∧ vdot diff vel < 0 then
    vsub vel (vscale (vdiv (smul bounce08 diff) (dist * dist)) (vdot diff vel))
  else vel

/-- One particle's per-frame physics update
(`src/08map_buffer.cpp` lines 252-272): resolve the three sphere
collisions in order, Euler-integrate, and reset a particle whose `y`
fell below `-30` to a fresh position above the scene with zero velocity.
`r1, r2, r3` model the three `float(std::rand())/RAND_MAX` draws of the
reset branch (each lies in `[0,1]`).  Returns the updated particle and
whether the reset branch was taken. -/
def updateParticle (len : Vec3 ℚ → ℚ) (r1 r2 r3 : ℚ) (p : Particle) :
    Particle × Bool :=
  let vel0 := collideSphere len p.pos 2
    (collideSphere len p.pos 1 (collideSphere len p.pos 0 p.vel))
  let vel1 := vadd vel0 (smul dt08 g08)
  let pos1 := vadd p.pos (smul dt08 vel1)
  if pos1.y < -30 then
    (⟨vadd ⟨0, 20, 0⟩ (smul 5 ⟨1/2 - r1, 1/2 - r2, 1/2 - r3⟩), ⟨0, 0, 0⟩⟩, true)
  else
    (⟨pos1, vel1⟩, false)

/-- The whole per-frame physics loop `for(int i = 0;i<particles;++i)`:
each particle is updated independently; each input carries the particle
and the three random draws its potential reset would use. -/
def updateAllParticles (len : Vec3 ℚ → ℚ)
    (inputs : List ((ℚ × ℚ × ℚ) × Particle)) : List (Particle × Bool) :=
  inputs.map (fun q => updateParticle len q.1.1 q.1.2.1 q.1.2.2 q.2)

/-! ### The chunk geometry of `10queries_conditional_render.cpp` -/

/-- The quad a visible block face contributes: four corner vertices,
each a position (`pos + 0.5*corner`) followed by the face normal
(`src/10queries_conditional_render.cpp` lines 271-332 — one such block
per face direction). -/
def faceQuad (pos : Vec3 ℚ) (c1 c2 c3 c4 normal : Vec3 ℚ) : List (Vec3 ℚ) :=
  [vadd pos (smul (1/2) c1), normal,
   vadd pos (smul (1/2) c2), normal,
   vadd pos (smul (1/2) c3), normal,
   vadd pos (smul (1/2) c4), normal]

/-- The integer block position as a `vec3`. -/
def vec3ofInts (p : ℤ × ℤ × ℤ) : Vec3 ℚ := ⟨(p.1 : ℚ), (p.2.1 : ℚ), (p.2.2 : ℚ)⟩

/-- The vertex data one block contributes
(`src/10queries_conditional_render.cpp` lines 269-335): if the block is
solid, one quad per face whose neighbour is not solid.  `solid q`
abstracts `world_function(q) < threshold` (a Perlin-noise evaluation at
integer coordinates). -/
def blockQuads (solid : ℤ × ℤ × ℤ → Bool) (p : ℤ × ℤ × ℤ) : List (Vec3 ℚ) :=
  if solid p then
    let pos := vec3ofInts p
    (if ¬ solid (p.1 + 1, p.2.1, p.2.2) then
      faceQuad pos ⟨1, 1, 1⟩ ⟨1, -1, 1⟩ ⟨1, 1, -1⟩ ⟨1, -1, -1⟩ ⟨1, 0, 0⟩ else []) ++
    (if ¬ solid (p.1, p.2.1 + 1, p.2.2) then
      faceQuad pos ⟨1, 1, 1⟩ ⟨1, 1, -1⟩ ⟨-1, 1, 1⟩ ⟨-1, 1, -1⟩ ⟨0, 1, 0⟩ else []) ++
    (if ¬ solid (p.1, p.2.1, p.2.2 + 1) then
      faceQuad pos ⟨1, 1, 1⟩ ⟨-1, 1, 1⟩ ⟨1, -1, 1⟩ ⟨-1, -1, 1⟩ ⟨0, 0, 1⟩ else []) ++
    (if ¬ solid (p.1 - 1, p.2.1, p.2.2) then
      faceQuad pos ⟨-1, 1, 1⟩ ⟨-1, 1, -1⟩ ⟨-1, -1, 1⟩ ⟨-1, -1, -1⟩ ⟨-1, 0, 0⟩ else []) ++
    (if ¬ solid (p.1, p.2.1 - 1, p.2.2) then
      faceQuad pos ⟨1, -1, 1⟩ ⟨-1, -1, 1⟩ ⟨1, -1, -1⟩ ⟨-1, -1, -1⟩ ⟨0, -1, 0⟩ else []) ++
    (if ¬ solid (p.1, p.2.1, p.2.2 - 1) then
      faceQuad pos ⟨1, 1, -1⟩ ⟨1, -1, -1⟩ ⟨-1, 1, -1⟩ ⟨-1, -1, -1⟩ ⟨0, 0, -1⟩ else [])
  else []

/-- One chunk's vertex data (`src/10queries_conditional_render.cpp`
lines 263-337): all blocks `(x,y,z)` of the chunk in loop order, at the
chunk's integer offset. -/
def chunkVertexData (solid : ℤ × ℤ × ℤ → Bool) (chunksize : Nat)
    (off : ℤ × ℤ × ℤ) : List (Vec3 ℚ) :=
  (List.range chunksize).flatMap fun x =>
    (List.range chunksize).flatMap fun y =>
      (List.range chunksize).flatMap fun z =>
        blockQuads solid (off.1 + x, off.2.1 + y, off.2.2 + z)

/-- The quad count `chunk.quadcount = vertexData.size()/8` (line 352): every quad
contributes 8 `vec3` entries (4 positions and 4 normals). -/
def chunkQuadcount (vd : List (Vec3 ℚ)) : Nat := vd.length / 8

/-- The chunk index buffer (`src/10queries_conditional_render.cpp`
lines 353-361): two triangles per quad, referencing the quad's four
vertices `4i..4i+3`. -/
def chunkIndexData (quadcount : Nat) : List Nat :=
  (List.range quadcount).flatMap fun i =>
    [4 * i + 0, 4 * i + 1, 4 * i + 2, 4 * i + 2, 4 * i + 1, 4 * i + 3]

/-- The number of drawable vertices of a chunk's vertex buffer: the
attribute stride is 6 floats (position and normal interleaved), so the
buffer of `vd.length` `vec3` entries holds `vd.length / 2` vertices. -/
def chunkVertexCount (vd : List (Vec3 ℚ)) : Nat := vd.length / 2

/-! ## Claim-level predicates -/

/-- Property: `main` reports a failed `glfwInit`, a failed window creation and a
failed GL loader initialisation each with a message on `std::cerr` and an
immediate `return 1`. -/
def checksAllInit (m : Env → MainResult) : Prop :=
  ∀ env : Env,
    (env.glfwInitOk = false →
      m env = earlyExit [Msg.initFail "failed to init GLFW"]) ∧
    (env.glfwInitOk = true → env.windowOk = false →
      m env = earlyExit [Msg.initFail "failed to open window"]) ∧
    (env.glfwInitOk = true → env.windowOk = true → env.loaderOk = false →
      m env = earlyExit [Msg.initFail "failed to init GL3W"])

/-- Property: `main` checks only the GL loader initialisation: a failed `glfwInit`
or window creation is ignored and execution continues. -/
def checksLoaderInitOnly (m : Env → MainResult) : Prop :=
  (∀ env : Env, env.loaderOk = false →
    m env = earlyExit [Msg.initFail "failed to init GLEW"]) ∧
  (∀ env : Env, env.loaderOk = true → env.extOk = true →
    (m env).exit = (m { env with glfwInitOk := false, windowOk := false }).exit ∧
    (m env).stderr = (m { env with glfwInitOk := false, windowOk := false }).stderr)

/-- Property: `main` returns 0 exactly when it reached the render loop. -/
def exitZeroIffLoop (m : Env → MainResult) : Prop :=
  ∀ env : Env, (m env).exit = 0 ↔ (m env).enteredLoop = true

/-- If every shader of `steps` compiles, a failed link of program `p`
writes the program info log to `std::cerr` but `main` still reaches the
render loop and returns 0: link failure is not fatal. -/
def linkFailureNonFatal (m : Env → MainResult) (steps : List SetupStep) : Prop :=
  ∀ (env : Env) (p : Nat),
    env.glfwInitOk = true → env.windowOk = true → env.loaderOk = true →
    env.extOk = true →
    (∀ i, SetupStep.compile i ∈ steps → env.compileOk i = true) →
    SetupStep.link p ∈ steps → env.linkOk p = false →
    Msg.programLog p ∈ (m env).stderr ∧ (m env).enteredLoop = true ∧
      (m env).exit = 0

/-- A failed shader compilation writes that shader's info log to
`std::cerr` and makes `main` return 1 without entering the render loop;
and whenever some compilation of `steps` fails, the setup phase does stop
at a failed shader. -/
def compileFailureFatal (m : Env → MainResult) (steps : List SetupStep) : Prop :=
  ∀ env : Env,
    env.glfwInitOk = true → env.windowOk = true → env.loaderOk = true →
    env.extOk = true →
    (∀ i, (runSetup env steps).failed = some i →
      env.compileOk i = false ∧ Msg.shaderLog i ∈ (m env).stderr ∧
      (m env).exit = 1 ∧ (m env).enteredLoop = false) ∧
    ((∃ i, SetupStep.compile i ∈ steps ∧ env.compileOk i = false) →
      ∃ i, (runSetup env steps).failed = some i)

/-- Every executed render-loop iteration of `m` polled `glGetError`
exactly once, and an iteration whose poll returned a nonzero value is the
last executed iteration. -/
def pollsErrorOnceAndAborts (m : Env → MainResult) : Prop :=
  ∀ env : Env,
    (∀ t ∈ (m env).frameTraces, countGetError t = 1) ∧
    (∀ k, k + 1 < (m env).framesRun →
      ∃ f, env.frames[k]? = some f ∧ f.glError = 0)

/-- Every blocking call a loop body issues is the event poll, the
presentation swap, or — only when `allowQueryWait` — the
`GL_QUERY_RESULT` read of a timer query. -/
def blocksOnlyOn (body : Frame → List Ev) (allowQueryWait : Bool) : Prop :=
  ∀ f : Frame, ∀ e ∈ body f, e.blocks = true →
    e = Ev.poll ∨ e = Ev.swap ∨ (allowQueryWait = true ∧ e = Ev.queryWait)

/-- On the `return 0` path, `m` leaves exactly the handles of `leaked`
undeleted: each of them was created and never deleted, and every other
created handle was deleted. -/
def teardownLeaks (m : Env → MainResult) (leaked : List String) : Prop :=
  ∀ env : Env, (m env).exit = 0 →
    (∀ h ∈ leaked, h ∈ (m env).createdOnExit ∧ h ∉ (m env).deletedOnExit) ∧
    (∀ h ∈ (m env).createdOnExit, h ∉ leaked → h ∈ (m env).deletedOnExit)

/-! ## Properties of the setup phase -/

theorem runSetup_failed_none_iff (env : Env) (steps : List SetupStep) :
    (runSetup env steps).failed = none ↔
      ∀ i, SetupStep.compile i ∈ steps → env.compileOk i = true := by
  induction steps with
  | nil => simp [runSetup]
  | cons s rest ih =>
      cases s with
      | compile i =>
          by_cases h : env.compileOk i
          · simp only [runSetup, if_pos h, ih]
            constructor
            · intro hall j hj
              rcases List.mem_cons.mp hj with hj | hj
              · cases hj; exact h
              · exact hall j hj
            · intro hall j hj
              exact hall j (List.mem_cons_of_mem _ hj)
          · simp only [runSetup, if_neg h]
            constructor
            · intro hc; cases hc
            · intro hall
              exact absurd (hall i (List.mem_cons_self _ _)) h
      | link p =>
          by_cases h : env.linkOk p
          · simp only [runSetup, if_pos h, ih]
            constructor
            · intro hall j hj
              rcases List.mem_cons.mp hj with hj | hj
              · cases hj
              · exact hall j hj
            · intro hall j hj
              exact hall j (List.mem_cons_of_mem _ hj)
          · simp only [runSetup, if_neg h, ih]
            constructor
            · intro hall j hj
              rcases List.mem_cons.mp hj with hj | hj
              · cases hj
              · exact hall j hj
            · intro hall j hj
              exact hall j (List.mem_cons_of_mem _ hj)

theorem runSetup_failed_some (env : Env) (steps : List SetupStep) (i : Nat)
    (h : (runSetup env steps).failed = some i) :
    env.compileOk i = false ∧ Msg.shaderLog i ∈ (runSetup env steps).msgs ∧
      SetupStep.compile i ∈ steps := by
  induction steps with
  | nil => simp [runSetup] at h
  | cons s rest ih =>
      cases s with
      | compile j =>
          by_cases hc : env.compileOk j
          · rw [runSetup, if_pos hc] at h ⊢
            obtain ⟨h1, h2, h3⟩ := ih h
            exact ⟨h1, h2, List.mem_cons_of_mem _ h3⟩
          · rw [runSetup, if_neg hc] at h ⊢
            simp only [Option.some.injEq] at h
            cases h
            refine ⟨by simpa using hc, by simp, List.mem_cons_self _ _⟩
      | link p =>
          by_cases hl : env.linkOk p
          · rw [runSetup, if_pos hl] at h ⊢
            obtain ⟨h1, h2, h3⟩ := ih h
            exact ⟨h1, h2, List.mem_cons_of_mem _ h3⟩
          · rw [runSetup, if_neg hl] at h ⊢
            obtain ⟨h1, h2, h3⟩ := ih h
            exact ⟨h1, List.mem_cons_of_mem _ h2, List.mem_cons_of_mem _ h3⟩

theorem runSetup_link_msg (env : Env) (steps : List SetupStep) (p : Nat)
    (hnone : (runSetup env steps).failed = none)
    (hmem : SetupStep.link p ∈ steps) (hfail : env.linkOk p = false) :
    Msg.programLog p ∈ (runSetup env steps).msgs := by
  induction steps with
  | nil => cases hmem
  | cons s rest ih =>
      cases s with
      | compile j =>
          by_cases hc : env.compileOk j
          · rw [runSetup, if_pos hc] at hnone ⊢
            rcases List.mem_cons.mp hmem with hj | hj
            · cases hj
            · exact ih hnone hj
          · rw [runSetup, if_neg hc] at hnone
            cases hnone
      | link q =>
          by_cases hl : env.linkOk q
          · rw [runSetup, if_pos hl] at hnone ⊢
            rcases List.mem_cons.mp hmem with hj | hj
            · cases hj; rw [hl] at hfail; cases hfail
            · exact ih hnone hj
          · rw [runSetup, if_neg hl] at hnone ⊢
            rcases List.mem_cons.mp hmem with hj | hj
            · cases hj; exact List.mem_cons_self _ _
            · exact List.mem_cons_of_mem _ (ih hnone hj)

/-! ## Properties of the render-loop drivers -/

theorem loop3_traces_shape (body : Frame → List Ev) (frames : List Frame) :
    ∀ t ∈ (loop3 body frames).traces, ∃ f ∈ frames, t = body f := by
  induction frames with
  | nil => simp [loop3]
  | cons f rest ih =>
      by_cases hc : f.shouldClose
      · simp [loop3, hc]
      · by_cases he : f.glError ≠ 0
        · rw [loop3, if_neg (by simpa using hc), if_pos he]
          intro t ht
          simp only [List.mem_singleton] at ht
          exact ⟨f, List.mem_cons_self _ _, ht⟩
        · rw [loop3, if_neg (by simpa using hc), if_neg he]
          intro t ht
          rcases List.mem_cons.mp ht with h | h
          · exact ⟨f, List.mem_cons_self _ _, h⟩
          · obtain ⟨g, hg, hgt⟩ := ih t h
            exact ⟨g, List.mem_cons_of_mem _ hg, hgt⟩

theorem loop3_error_stops (body : Frame → List Ev) (frames : List Frame) :
    ∀ k, k + 1 < (loop3 body frames).framesRun →
      ∃ f, frames[k]? = some f ∧ f.glError = 0 := by
  induction frames with
  | nil => intro k hk; simp [loop3] at hk
  | cons f rest ih =>
      intro k hk
      by_cases hc : f.shouldClose
      · rw [loop3, if_pos hc] at hk
        exact absurd hk (by simp)
      · by_cases he : f.glError ≠ 0
        · rw [loop3, if_neg (by simpa using hc), if_pos he] at hk
          exact absurd hk (by simp)
        · rw [loop3, if_neg (by simpa using hc), if_neg he] at hk
          cases k with
          | zero => exact ⟨f, by simp, by simpa using he⟩
          | succ j =>
              obtain ⟨g, hg, hge⟩ := ih j (by simpa using Nat.lt_of_succ_lt_succ hk)
              exact ⟨g, by simpa using hg, hge⟩

theorem loop2_traces_shape (body : Frame → List Ev) (frames : List Frame) :
    ∀ t ∈ (loop2 body frames).traces, ∃ f ∈ frames, t = body f := by
  induction frames with
  | nil => simp [loop2]
  | cons f rest ih =>
      by_cases hstop : f.esc || f.closed || f.glError ≠ 0
      · rw [loop2, if_pos hstop]
        intro t ht
        simp only [List.mem_singleton] at ht
        exact ⟨f, List.mem_cons_self _ _, ht⟩
      · rw [loop2, if_neg hstop]
        intro t ht
        rcases List.mem_cons.mp ht with h | h
        · exact ⟨f, List.mem_cons_self _ _, h⟩
        · obtain ⟨g, hg, hgt⟩ := ih t h
          exact ⟨g, List.mem_cons_of_mem _ hg, hgt⟩

theorem loop2_error_stops (body : Frame → List Ev) (frames : List Frame) :
    ∀ k, k + 1 < (loop2 body frames).framesRun →
      ∃ f, frames[k]? = some f ∧ f.glError = 0 := by
  induction frames with
  | nil => intro k hk; simp [loop2] at hk
  | cons f rest ih =>
      intro k hk
      by_cases hstop : f.esc || f.closed || f.glError ≠ 0
      · rw [loop2, if_pos hstop] at hk
        exact absurd hk (by simp)
      · rw [loop2, if_neg hstop] at hk
        cases k with
        | zero =>
            refine ⟨f, by simp, ?_⟩
            simp only [Bool.or_eq_true, not_or] at hstop
            simpa using hstop.2
        | succ j =>
            obtain ⟨g, hg, hge⟩ := ih j (by simpa using Nat.lt_of_succ_lt_succ hk)
            exact ⟨g, by simpa using hg, hge⟩

/-! ## Facts about the shared `main` shapes -/

theorem glfw3Main_success (steps : List SetupStep) (body : Frame → List Ev)
    (c d : List String) (env : Env)
    (h1 : env.glfwInitOk = true) (h2 : env.windowOk = true)
    (h3 : env.loaderOk = true)
    (hn : (runSetup env steps).failed = none) :
    glfw3Main steps body c d env =
      finishRun (runSetup env steps).msgs (loop3 body env.frames) c d := by
  simp [glfw3Main, h1, h2, h3, hn]

theorem glfw3Main_compileFail (steps : List SetupStep) (body : Frame → List Ev)
    (c d : List String) (env : Env) (i : Nat)
    (h1 : env.glfwInitOk = true) (h2 : env.windowOk = true)
    (h3 : env.loaderOk = true)
    (hf : (runSetup env steps).failed = some i) :
    glfw3Main steps body c d env =
      ⟨1, (runSetup env steps).msgs, [], false, 0, [], [], []⟩ := by
  simp [glfw3Main, h1, h2, h3, hf]

theorem glewMain_success (steps : List SetupStep) (body : Frame → List Ev)
    (c d : List String) (env : Env) (h3 : env.loaderOk = true)
    (hn : (runSetup env steps).failed = none) :
    glewMain steps body c d env =
      finishRun (runSetup env steps).msgs (loop2 body env.frames) c d := by
  simp [glewMain, h3, hn]

theorem glewMain_compileFail (steps : List SetupStep) (body : Frame → List Ev)
    (c d : List String) (env : Env) (i : Nat) (h3 : env.loaderOk = true)
    (hf : (runSetup env steps).failed = some i) :
    glewMain steps body c d env =
      ⟨1, (runSetup env steps).msgs, [], false, 0, [], [], []⟩ := by
  simp [glewMain, h3, hf]

theorem main12_success (env : Env) (h3 : env.loaderOk = true)
    (h4 : env.extOk = true) (hn : (runSetup env steps12).failed = none) :
    main12 env =
      finishRun (runSetup env steps12).msgs (loop2 body12 env.frames)
        created12 deleted12 := by
  simp [main12, h3, h4, hn]

theorem main12_compileFail (env : Env) (i : Nat) (h3 : env.loaderOk = true)
    (h4 : env.extOk = true) (hf : (runSetup env steps12).failed = some i) :
    main12 env = ⟨1, (runSetup env steps12).msgs, [], false, 0, [], [], []⟩ := by
  simp [main12, h3, h4, hf]

theorem glfw3Main_linkFailureNonFatal (steps : List SetupStep)
    (body : Frame → List Ev) (c d : List String) :
    linkFailureNonFatal (glfw3Main steps body c d) steps := by
  intro env p h1 h2 h3 _h4 hcomp hmem hlink
  have hn : (runSetup env steps).failed = none :=
    (runSetup_failed_none_iff env steps).mpr hcomp
  rw [glfw3Main_success steps body c d env h1 h2 h3 hn]
  exact ⟨List.mem_append_left _ (runSetup_link_msg env steps p hn hmem hlink),
    rfl, rfl⟩

theorem glewMain_linkFailureNonFatal (steps : List SetupStep)
    (body : Frame → List Ev) (c d : List String) :
    linkFailureNonFatal (glewMain steps body c d) steps := by
  intro env p _h1 _h2 h3 _h4 hcomp hmem hlink
  have hn : (runSetup env steps).failed = none :=
    (runSetup_failed_none_iff env steps).mpr hcomp
  rw [glewMain_success steps body c d env h3 hn]
  exact ⟨List.mem_append_left _ (runSetup_link_msg env steps p hn hmem hlink),
    rfl, rfl⟩

theorem main12_linkFailureNonFatal : linkFailureNonFatal main12 steps12 := by
  intro env p _h1 _h2 h3 h4 hcomp hmem hlink
  have hn : (runSetup env steps12).failed = none :=
    (runSetup_failed_none_iff env steps12).mpr hcomp
  rw [main12_success env h3 h4 hn]
  exact ⟨List.mem_append_left _ (runSetup_link_msg env steps12 p hn hmem hlink),
    rfl, rfl⟩

/-! ## C1: link failures are checked and logged, but not fatal -/

/-- C1.  The claim says a shader-program link failure "causes early exit
of main" and that "after a link failure the program does not continue to
the render loop".  The code checks the link status and prints the info
log, but every call site of `check_program_link_status` discards its
result, so `main` continues into the render loop and returns 0.  This
theorem proves the amended claim for every example that links a program:
if all shader compilations succeed and some program's link fails, the
program info log is on `std::cerr`, the render loop is still entered and
`main` returns 0. -/
theorem c1_link_failure_logged_but_not_fatal :
    linkFailureNonFatal main3texture steps3texture ∧
    linkFailureNonFatal main05 steps05 ∧
    linkFailureNonFatal main07 steps07 ∧
    linkFailureNonFatal main08 steps08 ∧
    linkFailureNonFatal main09 steps09 ∧
    linkFailureNonFatal main10 steps10 ∧
    linkFailureNonFatal main11 steps11 ∧
    linkFailureNonFatal main12 steps12 ∧
    linkFailureNonFatal main13 steps13 :=
  ⟨glewMain_linkFailureNonFatal _ _ _ _,
   glfw3Main_linkFailureNonFatal _ _ _ _,
   glfw3Main_linkFailureNonFatal _ _ _ _,
   glfw3Main_linkFailureNonFatal _ _ _ _,
   glfw3Main_linkFailureNonFatal _ _ _ _,
   glfw3Main_linkFailureNonFatal _ _ _ _,
   glfw3Main_linkFailureNonFatal _ _ _ _,
   main12_linkFailureNonFatal,
   glfw3Main_linkFailureNonFatal _ _ _ _⟩

/-- C1, counterexample to the claim as stated: in
`13compute_shader_nbody.cpp`, with every shader compiling and every
program link failing, `main` still enters the render loop and returns 0
(the link-failure log is printed, but there is no early exit). -/
theorem c1_counterexample_link_failure_not_early_exit :
    (main13 ⟨true, true, true, true, fun _ => true, fun _ => false, []⟩).enteredLoop
        = true ∧
    (main13 ⟨true, true, true, true, fun _ => true, fun _ => false, []⟩).exit = 0 ∧
    Msg.programLog 0 ∈
      (main13 ⟨true, true, true, true, fun _ => true, fun _ => false, []⟩).stderr := by
  refine ⟨rfl, rfl, ?_⟩
  simp [main13, glfw3Main, runSetup, steps13, finishRun, loop3]

/-! ## C2: initialisation failures and the exit code -/

theorem glfw3Main_checksAllInit (steps : List SetupStep)
    (body : Frame → List Ev) (c d : List String) :
    checksAllInit (glfw3Main steps body c d) := by
  intro env
  refine ⟨fun h1 => ?_, fun h1 h2 => ?_, fun h1 h2 h3 => ?_⟩
  · simp [glfw3Main, h1]
  · simp [glfw3Main, h1, h2]
  · simp [glfw3Main, h1, h2, h3]

theorem main00skeleton_checksAllInit : checksAllInit main00skeleton := by
  intro env
  refine ⟨fun h1 => ?_, fun h1 h2 => ?_, fun h1 h2 h3 => ?_⟩
  · simp [main00skeleton, h1]
  · simp [main00skeleton, h1, h2]
  · simp [main00skeleton, h1, h2, h3]

theorem runSetup_ext (env env' : Env) (hc : env.compileOk = env'.compileOk)
    (hl : env.linkOk = env'.linkOk) :
    ∀ steps, runSetup env steps = runSetup env' steps := by
  intro steps
  induction steps with
  | nil => rfl
  | cons s rest ih =>
      cases s with
      | compile i => simp only [runSetup, hc, ih]
      | link p => simp only [runSetup, hl, ih]

theorem glewMain_checksLoaderInitOnly (steps : List SetupStep)
    (body : Frame → List Ev) (c d : List String) :
    checksLoaderInitOnly (glewMain steps body c d) := by
  constructor
  · intro env h3
    simp [glewMain, h3]
  · intro env _h3 _h4
    have hrs := runSetup_ext env
      { env with glfwInitOk := false, windowOk := false } rfl rfl steps
    have hmain : glewMain steps body c d
        { env with glfwInitOk := false, windowOk := false }
        = glewMain steps body c d env := by
      unfold glewMain
      rw [hrs]
    rw [hmain]
    exact ⟨rfl, rfl⟩

theorem main12_checksLoaderInitOnly : checksLoaderInitOnly main12 := by
  constructor
  · intro env h3
    simp [main12, h3]
  · intro env _h3 _h4
    exact ⟨rfl, rfl⟩

theorem glfw3Main_exitZeroIffLoop (steps : List SetupStep)
    (body : Frame → List Ev) (c d : List String) :
    exitZeroIffLoop (glfw3Main steps body c d) := by
  intro env
  cases h1 : env.glfwInitOk with
  | false => simp [glfw3Main, h1, earlyExit]
  | true =>
    cases h2 : env.windowOk with
    | false => simp [glfw3Main, h1, h2, earlyExit]
    | true =>
      cases h3 : env.loaderOk with
      | false => simp [glfw3Main, h1, h2, h3, earlyExit]
      | true =>
        cases hf : (runSetup env steps).failed with
        | some i => simp [glfw3Main, h1, h2, h3, hf]
        | none => simp [glfw3Main, h1, h2, h3, hf, finishRun]

theorem glewMain_exitZeroIffLoop (steps : List SetupStep)
    (body : Frame → List Ev) (c d : List String) :
    exitZeroIffLoop (glewMain steps body c d) := by
  intro env
  cases h3 : env.loaderOk with
  | false => simp [glewMain, h3, earlyExit]
  | true =>
    cases hf : (runSetup env steps).failed with
    | some i => simp [glewMain, h3, hf]
    | none => simp [glewMain, h3, hf, finishRun]

theorem main12_exitZeroIffLoop : exitZeroIffLoop main12 := by
  intro env
  cases h3 : env.loaderOk with
  | false => simp [main12, h3, earlyExit]
  | true =>
    cases h4 : env.extOk with
    | false => simp [main12, h3, h4]
    | true =>
      cases hf : (runSetup env steps12).failed with
      | some i => simp [main12, h3, h4, hf]
      | none => simp [main12, h3, h4, hf, finishRun]

theorem main00skeleton_exitZeroIffLoop : exitZeroIffLoop main00skeleton := by
  intro env
  cases h1 : env.glfwInitOk with
  | false => simp [main00skeleton, h1, earlyExit]
  | true =>
    cases h2 : env.windowOk with
    | false => simp [main00skeleton, h1, h2, earlyExit]
    | true =>
      cases h3 : env.loaderOk with
      | false => simp [main00skeleton, h1, h2, h3, earlyExit]
      | true => simp [main00skeleton, h1, h2, h3, finishRun]

/-- C2 (amended).  The GLFW 3 examples and `00skeleton.cpp` report every
initialisation failure (`glfwInit`, window creation, GL loader) with a
message and exit status 1.  `0skeleton.cpp`, `3texture.cpp` and
`12shader_image_load_store.cpp` check only the GL loader initialisation
(and, for 12, the image-load-store extension, reported on `std::cout`);
a failed `glfwInit()` or `glfwOpenWindow(…)` is ignored there and changes
neither the exit code nor the diagnostics.  In every example, `main`
returns 0 exactly when the render loop was reached (whether it then ends
by window close or is aborted by a reported graphics error). -/
theorem c2_init_failure_checks_and_exit_code :
    checksAllInit main00skeleton ∧
    checksAllInit main05 ∧ checksAllInit main07 ∧ checksAllInit main08 ∧
    checksAllInit main09 ∧ checksAllInit main10 ∧ checksAllInit main11 ∧
    checksAllInit main13 ∧
    checksLoaderInitOnly main0skeleton ∧
    checksLoaderInitOnly main3texture ∧
    checksLoaderInitOnly main12 ∧
    (∀ env : Env, env.loaderOk = true → env.extOk = false →
      (main12 env).exit = 1 ∧ (main12 env).enteredLoop = false ∧
      (main12 env).stdout
        = [Msg.initFail "GL_ARB_shader_image_load_store not available"]) ∧
    exitZeroIffLoop main00skeleton ∧ exitZeroIffLoop main0skeleton ∧
    exitZeroIffLoop main3texture ∧ exitZeroIffLoop main05 ∧
    exitZeroIffLoop main07 ∧ exitZeroIffLoop main08 ∧
    exitZeroIffLoop main09 ∧ exitZeroIffLoop main10 ∧
    exitZeroIffLoop main11 ∧ exitZeroIffLoop main12 ∧
    exitZeroIffLoop main13 :=
  ⟨main00skeleton_checksAllInit,
   glfw3Main_checksAllInit _ _ _ _, glfw3Main_checksAllInit _ _ _ _,
   glfw3Main_checksAllInit _ _ _ _, glfw3Main_checksAllInit _ _ _ _,
   glfw3Main_checksAllInit _ _ _ _, glfw3Main_checksAllInit _ _ _ _,
   glfw3Main_checksAllInit _ _ _ _,
   glewMain_checksLoaderInitOnly _ _ _ _,
   glewMain_checksLoaderInitOnly _ _ _ _,
   main12_checksLoaderInitOnly,
   fun env h3 h4 => by
     refine ⟨?_, ?_, ?_⟩ <;> simp [main12, h3, h4],
   main00skeleton_exitZeroIffLoop,
   glewMain_exitZeroIffLoop _ _ _ _, glewMain_exitZeroIffLoop _ _ _ _,
   glfw3Main_exitZeroIffLoop _ _ _ _, glfw3Main_exitZeroIffLoop _ _ _ _,
   glfw3Main_exitZeroIffLoop _ _ _ _, glfw3Main_exitZeroIffLoop _ _ _ _,
   glfw3Main_exitZeroIffLoop _ _ _ _, glfw3Main_exitZeroIffLoop _ _ _ _,
   main12_exitZeroIffLoop,
   glfw3Main_exitZeroIffLoop _ _ _ _⟩

/-- C2, counterexample to the claim as stated: in `3texture.cpp`, a run
in which both the windowing-library initialisation and the window
creation fail still reaches the render loop, prints nothing, and returns
exit status 0 — not 1 — because the source never checks those two return
values. -/
theorem c2_counterexample_window_failure_ignored :
    (main3texture ⟨false, false, true, true, fun _ => true, fun _ => true, []⟩).exit
        = 0 ∧
    (main3texture ⟨false, false, true, true, fun _ => true, fun _ => true, []⟩).stderr
        = [] ∧
    (main3texture
        ⟨false, false, true, true, fun _ => true, fun _ => true, []⟩).enteredLoop
        = true :=
  ⟨rfl, rfl, rfl⟩

/-! ## C3: one `glGetError` poll per iteration; an error aborts -/

theorem glfw3Main_loop_shape (steps : List SetupStep) (body : Frame → List Ev)
    (c d : List String) (env : Env) :
    ((glfw3Main steps body c d env).frameTraces = [] ∧
      (glfw3Main steps body c d env).framesRun = 0) ∨
    ((glfw3Main steps body c d env).frameTraces = (loop3 body env.frames).traces ∧
      (glfw3Main steps body c d env).framesRun
        = (loop3 body env.frames).framesRun) := by
  cases h1 : env.glfwInitOk with
  | false => left; simp [glfw3Main, h1, earlyExit]
  | true =>
    cases h2 : env.windowOk with
    | false => left; simp [glfw3Main, h1, h2, earlyExit]
    | true =>
      cases h3 : env.loaderOk with
      | false => left; simp [glfw3Main, h1, h2, h3, earlyExit]
      | true =>
        cases hf : (runSetup env steps).failed with
        | some i => left; simp [glfw3Main, h1, h2, h3, hf]
        | none => right; simp [glfw3Main, h1, h2, h3, hf, finishRun]

theorem glewMain_loop_shape (steps : List SetupStep) (body : Frame → List Ev)
    (c d : List String) (env : Env) :
    ((glewMain steps body c d env).frameTraces = [] ∧
      (glewMain steps body c d env).framesRun = 0) ∨
    ((glewMain steps body c d env).frameTraces = (loop2 body env.frames).traces ∧
      (glewMain steps body c d env).framesRun
        = (loop2 body env.frames).framesRun) := by
  cases h3 : env.loaderOk with
  | false => left; simp [glewMain, h3, earlyExit]
  | true =>
    cases hf : (runSetup env steps).failed with
    | some i => left; simp [glewMain, h3, hf]
    | none => right; simp [glewMain, h3, hf, finishRun]

theorem main12_loop_shape (env : Env) :
    ((main12 env).frameTraces = [] ∧ (main12 env).framesRun = 0) ∨
    ((main12 env).frameTraces = (loop2 body12 env.frames).traces ∧
      (main12 env).framesRun = (loop2 body12 env.frames).framesRun) := by
  cases h3 : env.loaderOk with
  | false => left; simp [main12, h3, earlyExit]
  | true =>
    cases h4 : env.extOk with
    | false => left; simp [main12, h3, h4]
    | true =>
      cases hf : (runSetup env steps12).failed with
      | some i => left; simp [main12, h3, h4, hf]
      | none => right; simp [main12, h3, h4, hf, finishRun]

theorem main00skeleton_loop_shape (env : Env) :
    ((main00skeleton env).frameTraces = [] ∧
      (main00skeleton env).framesRun = 0) ∨
    ((main00skeleton env).frameTraces = (loop2 bodySkeleton env.frames).traces ∧
      (main00skeleton env).framesRun
        = (loop2 bodySkeleton env.frames).framesRun) := by
  cases h1 : env.glfwInitOk with
  | false => left; simp [main00skeleton, h1, earlyExit]
  | true =>
    cases h2 : env.windowOk with
    | false => left; simp [main00skeleton, h1, h2, earlyExit]
    | true =>
      cases h3 : env.loaderOk with
      | false => left; simp [main00skeleton, h1, h2, h3, earlyExit]
      | true => right; simp [main00skeleton, h1, h2, h3, finishRun]

theorem pollsErrorOnceAndAborts_of_loop3 (m : Env → MainResult)
    (body : Frame → List Ev) (hbody : ∀ f, countGetError (body f) = 1)
    (h : ∀ env : Env,
      ((m env).frameTraces = [] ∧ (m env).framesRun = 0) ∨
      ((m env).frameTraces = (loop3 body env.frames).traces ∧
        (m env).framesRun = (loop3 body env.frames).framesRun)) :
    pollsErrorOnceAndAborts m := by
  intro env
  rcases h env with ⟨ht, hr⟩ | ⟨ht, hr⟩
  · rw [ht, hr]
    exact ⟨by simp, fun k hk => by omega⟩
  · rw [ht, hr]
    constructor
    · intro t htm
      obtain ⟨f, _, rfl⟩ := loop3_traces_shape body env.frames t htm
      exact hbody f
    · exact loop3_error_stops body env.frames

theorem pollsErrorOnceAndAborts_of_loop2 (m : Env → MainResult)
    (body : Frame → List Ev) (hbody : ∀ f, countGetError (body f) = 1)
    (h : ∀ env : Env,
      ((m env).frameTraces = [] ∧ (m env).framesRun = 0) ∨
      ((m env).frameTraces = (loop2 body env.frames).traces ∧
        (m env).framesRun = (loop2 body env.frames).framesRun)) :
    pollsErrorOnceAndAborts m := by
  intro env
  rcases h env with ⟨ht, hr⟩ | ⟨ht, hr⟩
  · rw [ht, hr]
    exact ⟨by simp, fun k hk => by omega⟩
  · rw [ht, hr]
    constructor
    · intro t htm
      obtain ⟨f, _, rfl⟩ := loop2_traces_shape body env.frames t htm
      exact hbody f
    · exact loop2_error_stops body env.frames

theorem countGetError_bodySkeleton (f : Frame) :
    countGetError (bodySkeleton f) = 1 := rfl

theorem countGetError_body3texture (f : Frame) :
    countGetError (body3texture f) = 1 := rfl

theorem countGetError_body12 (f : Frame) :
    countGetError (body12 f) = 1 := rfl

theorem countGetError_body05 (f : Frame) : countGetError (body05 f) = 1 := by
  by_cases h : f.glError = 0 <;> simp [body05, countGetError, h]

theorem countGetError_body07 (f : Frame) : countGetError (body07 f) = 1 := by
  by_cases h : f.glError = 0 <;> simp [body07, countGetError, h]

theorem countGetError_body08 (f : Frame) : countGetError (body08 f) = 1 := by
  by_cases h : f.glError = 0 <;> simp [body08, countGetError, h]

theorem countGetError_body09 (f : Frame) : countGetError (body09 f) = 1 := by
  by_cases h : f.glError = 0 <;> simp [body09, countGetError, h]

theorem countGetError_body10 (f : Frame) : countGetError (body10 f) = 1 := by
  by_cases h : f.glError = 0 <;> by_cases hq : f.queryAvail <;>
    simp [body10, countGetError, h, hq]

theorem countGetError_body11 (f : Frame) : countGetError (body11 f) = 1 := by
  by_cases h : f.glError = 0 <;> simp [body11, countGetError, h]

theorem countGetError_body13 (f : Frame) : countGetError (body13 f) = 1 := by
  by_cases h : f.glError = 0 <;> simp [body13, countGetError, h]

/-- C3.  In every example's render loop, each executed iteration calls
`glGetError` exactly once, and an iteration whose poll returns a nonzero
value is the last one: every earlier executed iteration polled
`GL_NO_ERROR`. -/
theorem c3_error_polled_once_per_frame_and_aborts :
    pollsErrorOnceAndAborts main00skeleton ∧
    pollsErrorOnceAndAborts main0skeleton ∧
    pollsErrorOnceAndAborts main3texture ∧
    pollsErrorOnceAndAborts main05 ∧
    pollsErrorOnceAndAborts main07 ∧
    pollsErrorOnceAndAborts main08 ∧
    pollsErrorOnceAndAborts main09 ∧
    pollsErrorOnceAndAborts main10 ∧
    pollsErrorOnceAndAborts main11 ∧
    pollsErrorOnceAndAborts main12 ∧
    pollsErrorOnceAndAborts main13 :=
  ⟨pollsErrorOnceAndAborts_of_loop2 _ _ countGetError_bodySkeleton
      main00skeleton_loop_shape,
   pollsErrorOnceAndAborts_of_loop2 _ _ countGetError_bodySkeleton
      (glewMain_loop_shape _ _ _ _),
   pollsErrorOnceAndAborts_of_loop2 _ _ countGetError_body3texture
      (glewMain_loop_shape _ _ _ _),
   pollsErrorOnceAndAborts_of_loop3 _ _ countGetError_body05
      (glfw3Main_loop_shape _ _ _ _),
   pollsErrorOnceAndAborts_of_loop3 _ _ countGetError_body07
      (glfw3Main_loop_shape _ _ _ _),
   pollsErrorOnceAndAborts_of_loop3 _ _ countGetError_body08
      (glfw3Main_loop_shape _ _ _ _),
   pollsErrorOnceAndAborts_of_loop3 _ _ countGetError_body09
      (glfw3Main_loop_shape _ _ _ _),
   pollsErrorOnceAndAborts_of_loop3 _ _ countGetError_body10
      (glfw3Main_loop_shape _ _ _ _),
   pollsErrorOnceAndAborts_of_loop3 _ _ countGetError_body11
      (glfw3Main_loop_shape _ _ _ _),
   pollsErrorOnceAndAborts_of_loop2 _ _ countGetError_body12
      main12_loop_shape,
   pollsErrorOnceAndAborts_of_loop3 _ _ countGetError_body13
      (glfw3Main_loop_shape _ _ _ _)⟩

/-! ## C4: teardown on exit -/

theorem glfw3Main_exit0_objects (steps : List SetupStep)
    (body : Frame → List Ev) (c d : List String) (env : Env)
    (h : (glfw3Main steps body c d env).exit = 0) :
    (glfw3Main steps body c d env).createdOnExit = c ∧
      (glfw3Main steps body c d env).deletedOnExit = d := by
  cases h1 : env.glfwInitOk with
  | false => rw [(glfw3Main_checksAllInit steps body c d env).1 h1] at h; cases h
  | true =>
    cases h2 : env.windowOk with
    | false =>
        rw [(glfw3Main_checksAllInit steps body c d env).2.1 h1 h2] at h; cases h
    | true =>
      cases h3 : env.loaderOk with
      | false =>
          rw [(glfw3Main_checksAllInit steps body c d env).2.2 h1 h2 h3] at h
          cases h
      | true =>
        cases hf : (runSetup env steps).failed with
        | some i =>
            rw [glfw3Main_compileFail steps body c d env i h1 h2 h3 hf] at h
            cases h
        | none =>
            rw [glfw3Main_success steps body c d env h1 h2 h3 hf]
            exact ⟨rfl, rfl⟩

theorem glewMain_exit0_objects (steps : List SetupStep)
    (body : Frame → List Ev) (c d : List String) (env : Env)
    (h : (glewMain steps body c d env).exit = 0) :
    (glewMain steps body c d env).createdOnExit = c ∧
      (glewMain steps body c d env).deletedOnExit = d := by
  cases h3 : env.loaderOk with
  | false => rw [(glewMain_checksLoaderInitOnly steps body c d).1 env h3] at h; cases h
  | true =>
    cases hf : (runSetup env steps).failed with
    | some i => rw [glewMain_compileFail steps body c d env i h3 hf] at h; cases h
    | none =>
        rw [glewMain_success steps body c d env h3 hf]
        exact ⟨rfl, rfl⟩

theorem main12_exit0_objects (env : Env) (h : (main12 env).exit = 0) :
    (main12 env).createdOnExit = created12 ∧
      (main12 env).deletedOnExit = deleted12 := by
  cases h3 : env.loaderOk with
  | false => rw [main12_checksLoaderInitOnly.1 env h3] at h; cases h
  | true =>
    cases h4 : env.extOk with
    | false => simp [main12, h3, h4] at h
    | true =>
      cases hf : (runSetup env steps12).failed with
      | some i => rw [main12_compileFail env i h3 h4 hf] at h; cases h
      | none =>
          rw [main12_success env h3 h4 hf]
          exact ⟨rfl, rfl⟩

theorem main00skeleton_exit0_objects (env : Env)
    (h : (main00skeleton env).exit = 0) :
    (main00skeleton env).createdOnExit = [] ∧
      (main00skeleton env).deletedOnExit = [] := by
  cases h1 : env.glfwInitOk with
  | false => rw [(main00skeleton_checksAllInit env).1 h1] at h; cases h
  | true =>
    cases h2 : env.windowOk with
    | false => rw [(main00skeleton_checksAllInit env).2.1 h1 h2] at h; cases h
    | true =>
      cases h3 : env.loaderOk with
      | false => rw [(main00skeleton_checksAllInit env).2.2 h1 h2 h3] at h; cases h
      | true => simp [main00skeleton, h1, h2, h3, finishRun]

/-- C4 (amended).  On the `return 0` path, the skeletons create nothing;
`07`, `08`, `09`, `10` and `12` delete every handle they created; but
`05fbo_fxaa.cpp` leaks its framebuffer texture, renderbuffer and
framebuffer object, `11tesselation.cpp` leaks its displacement texture,
`3texture.cpp` deletes nothing it created, and
`13compute_shader_nbody.cpp` leaks the tiled-acceleration shader and
program, the integrate shader and program, and the timer query object.
So teardown on exit is not complete in four of the examples. -/
theorem c4_teardown_leaks :
    teardownLeaks main00skeleton [] ∧
    teardownLeaks main0skeleton [] ∧
    teardownLeaks main3texture created3texture ∧
    teardownLeaks main05 ["texture", "rbf", "fbo"] ∧
    teardownLeaks main07 [] ∧
    teardownLeaks main08 [] ∧
    teardownLeaks main09 [] ∧
    teardownLeaks main10 [] ∧
    teardownLeaks main11 ["displacement"] ∧
    teardownLeaks main12 [] ∧
    teardownLeaks main13
      ["tiled_acceleration_shader", "tiled_acceleration_program",
       "integrate_shader", "integrate_program", "query"] := by
  refine ⟨?_, ?_, ?_, ?_, ?_, ?_, ?_, ?_, ?_, ?_, ?_⟩ <;> intro env h0
  · obtain ⟨hc, hd⟩ := main00skeleton_exit0_objects env h0
    rw [hc, hd]; exact ⟨by decide, by decide⟩
  · simp only [main0skeleton] at h0 ⊢
    obtain ⟨hc, hd⟩ := glewMain_exit0_objects _ _ _ _ env h0
    rw [hc, hd]; exact ⟨by decide, by decide⟩
  · simp only [main3texture] at h0 ⊢
    obtain ⟨hc, hd⟩ := glewMain_exit0_objects _ _ _ _ env h0
    rw [hc, hd]; exact ⟨by decide, by decide⟩
  · simp only [main05] at h0 ⊢
    obtain ⟨hc, hd⟩ := glfw3Main_exit0_objects _ _ _ _ env h0
    rw [hc, hd]; exact ⟨by decide, by decide⟩
  · simp only [main07] at h0 ⊢
    obtain ⟨hc, hd⟩ := glfw3Main_exit0_objects _ _ _ _ env h0
    rw [hc, hd]; exact ⟨by decide, by decide⟩
  · simp only [main08] at h0 ⊢
    obtain ⟨hc, hd⟩ := glfw3Main_exit0_objects _ _ _ _ env h0
    rw [hc, hd]; exact ⟨by decide, by decide⟩
  · simp only [main09] at h0 ⊢
    obtain ⟨hc, hd⟩ := glfw3Main_exit0_objects _ _ _ _ env h0
    rw [hc, hd]; exact ⟨by decide, by decide⟩
  · simp only [main10] at h0 ⊢
    obtain ⟨hc, hd⟩ := glfw3Main_exit0_objects _ _ _ _ env h0
    rw [hc, hd]; exact ⟨by decide, by decide⟩
  · simp only [main11] at h0 ⊢
    obtain ⟨hc, hd⟩ := glfw3Main_exit0_objects _ _ _ _ env h0
    rw [hc, hd]; exact ⟨by decide, by decide⟩
  · obtain ⟨hc, hd⟩ := main12_exit0_objects env h0
    rw [hc, hd]; exact ⟨by decide, by decide⟩
  · simp only [main13] at h0 ⊢
    obtain ⟨hc, hd⟩ := glfw3Main_exit0_objects _ _ _ _ env h0
    rw [hc, hd]; exact ⟨by decide, by decide⟩

/-- C4, counterexample to the claim as stated: a graceful run of
`13compute_shader_nbody.cpp` returns 0 with the timer query object
created but never deleted. -/
theorem c4_counterexample_query_outlives_main :
    (main13 ⟨true, true, true, true, fun _ => true, fun _ => true, []⟩).exit = 0 ∧
    "query" ∈ (main13
      ⟨true, true, true, true, fun _ => true, fun _ => true, []⟩).createdOnExit ∧
    "query" ∉ (main13
      ⟨true, true, true, true, fun _ => true, fun _ => true, []⟩).deletedOnExit := by
  refine ⟨rfl, ?_, ?_⟩
  · show "query" ∈ created13
    decide
  · show "query" ∉ deleted13
    decide

/-! ## C5: compile failures are fatal -/

theorem glfw3Main_compileFailureFatal (steps : List SetupStep)
    (body : Frame → List Ev) (c d : List String) :
    compileFailureFatal (glfw3Main steps body c d) steps := by
  intro env h1 h2 h3 _h4
  constructor
  · intro i hf
    obtain ⟨hco, hmem, _hstep⟩ := runSetup_failed_some env steps i hf
    rw [glfw3Main_compileFail steps body c d env i h1 h2 h3 hf]
    exact ⟨hco, hmem, rfl, rfl⟩
  · rintro ⟨i, hmem, hbad⟩
    cases hsf : (runSetup env steps).failed with
    | none =>
        have := (runSetup_failed_none_iff env steps).mp hsf i hmem
        rw [this] at hbad; cases hbad
    | some j => exact ⟨j, rfl⟩

theorem glewMain_compileFailureFatal (steps : List SetupStep)
    (body : Frame → List Ev) (c d : List String) :
    compileFailureFatal (glewMain steps body c d) steps := by
  intro env _h1 _h2 h3 _h4
  constructor
  · intro i hf
    obtain ⟨hco, hmem, _hstep⟩ := runSetup_failed_some env steps i hf
    rw [glewMain_compileFail steps body c d env i h3 hf]
    exact ⟨hco, hmem, rfl, rfl⟩
  · rintro ⟨i, hmem, hbad⟩
    cases hsf : (runSetup env steps).failed with
    | none =>
        have := (runSetup_failed_none_iff env steps).mp hsf i hmem
        rw [this] at hbad; cases hbad
    | some j => exact ⟨j, rfl⟩

theorem main12_compileFailureFatal : compileFailureFatal main12 steps12 := by
  intro env _h1 _h2 h3 h4
  constructor
  · intro i hf
    obtain ⟨hco, hmem, _hstep⟩ := runSetup_failed_some env steps12 i hf
    rw [main12_compileFail env i h3 h4 hf]
    exact ⟨hco, hmem, rfl, rfl⟩
  · rintro ⟨i, hmem, hbad⟩
    cases hsf : (runSetup env steps12).failed with
    | none =>
        have := (runSetup_failed_none_iff env steps12).mp hsf i hmem
        rw [this] at hbad; cases hbad
    | some j => exact ⟨j, rfl⟩

/-- C5.  In every example that compiles shaders, a shader whose
compilation fails makes the setup phase stop at the first failing
shader: its info log is written to `std::cerr` and `main` returns 1
without entering the render loop. -/
theorem c5_compile_failure_logs_and_exits_before_loop :
    compileFailureFatal main3texture steps3texture ∧
    compileFailureFatal main05 steps05 ∧
    compileFailureFatal main07 steps07 ∧
    compileFailureFatal main08 steps08 ∧
    compileFailureFatal main09 steps09 ∧
    compileFailureFatal main10 steps10 ∧
    compileFailureFatal main11 steps11 ∧
    compileFailureFatal main12 steps12 ∧
    compileFailureFatal main13 steps13 :=
  ⟨glewMain_compileFailureFatal _ _ _ _,
   glfw3Main_compileFailureFatal _ _ _ _,
   glfw3Main_compileFailureFatal _ _ _ _,
   glfw3Main_compileFailureFatal _ _ _ _,
   glfw3Main_compileFailureFatal _ _ _ _,
   glfw3Main_compileFailureFatal _ _ _ _,
   glfw3Main_compileFailureFatal _ _ _ _,
   main12_compileFailureFatal,
   glfw3Main_compileFailureFatal _ _ _ _⟩

/-! ## C6: the tiled and the straightforward N-body kernel agree -/

theorem tileLoop_eq_foldl {R : Type} [Field R] (len : Vec3 R → R)
    (pos : Vec3 R) (P : Nat → Vec4 R) :
    ∀ (m t : Nat) (acc : Vec3 R),
      tileLoop len pos P (t + 256 * m) t acc =
        (List.range' t (256 * m)).foldl
          (fun a i => accelStep len pos a (P i).xyz) acc := by
  intro m
  induction m with
  | zero =>
      intro t acc
      unfold tileLoop
      simp
  | succ m ih =>
      intro t acc
      unfold tileLoop
      have ht : t < t + 256 * (m + 1) := by omega
      rw [dif_pos ht]
      have hN : t + 256 * (m + 1) = (t + 256) + 256 * m := by ring
      rw [hN, ih (t + 256)]
      have hacc :
          (List.range 256).foldl
            (fun a i => accelStep len pos a ((fun l => P (t + l)) i).xyz) acc
          = (List.range' t 256).foldl
              (fun a i => accelStep len pos a (P i).xyz) acc := by
        rw [List.range'_eq_map_range t 256, List.foldl_map]
      rw [hacc]
      have hsplit : (256 : Nat) * (m + 1) = 256 * m + 256 := by ring
      rw [hsplit, ← List.range'_append_1 t 256 (256 * m), List.foldl_append]

/-- C6.  With the particle count `N = numWorkGroups * 256` (the dispatch
in `main` uses `particles/256` workgroups of local size 256, so `N` is a
multiple of the workgroup size), identical `positions` and `velocities`
buffer contents, and for every invocation `index`, the tiled kernel's
tile-by-tile accumulation visits `positions[0..N-1]` in exactly the order
of the straightforward kernel's single loop, so both kernels write the
same new velocity: the two kernels are equivalent.  `R` is any field
(the real-number reading of the shader arithmetic) and `len` any
function interpreting GLSL `length`. -/
theorem c6_tiled_kernel_equals_straightforward {R : Type} [Field R]
    (len : Vec3 R → R) (numWorkGroups : Nat) (dt : R)
    (positions velocities : Nat → Vec4 R) (index : Nat) :
    tiled_acceleration_kernel len numWorkGroups dt positions velocities index
      = acceleration_kernel len numWorkGroups dt positions velocities index := by
  simp only [tiled_acceleration_kernel, acceleration_kernel]
  have h0 : numWorkGroups * 256 = 0 + 256 * numWorkGroups := by ring
  rw [h0, tileLoop_eq_foldl, Nat.zero_add, ← List.range_eq_range']

/-! ## C7: the space-key toggle is edge-triggered -/

/-- C7.  For the space-key feature toggles (fxaa in 05, occlusion
culling in 10, tessellation in 11, the tiled kernel in 13, all sharing
the same lines): the flag flips exactly when the key is observed down
this frame and the latch `space_down` recorded it up last frame; the
latch always records this frame's observation; and while the key stays
down, iterating the step never changes the flag after the first step —
holding the key flips the flag at most once. -/
theorem c7_space_toggle_edge_triggered :
    (∀ (space : Bool) (st : Bool × Bool),
      (((spaceToggleStep space st).1 ≠ st.1) ↔ (space = true ∧ st.2 = false)) ∧
      (spaceToggleStep space st).2 = space) ∧
    (∀ (st : Bool × Bool) (n : Nat), 1 ≤ n →
      (spaceToggleStep true)^[n] st = spaceToggleStep true st) := by
  constructor
  · intro space st
    exact ⟨by revert space st; decide, rfl⟩
  · intro st n hn
    obtain ⟨m, rfl⟩ : ∃ m, n = m + 1 := ⟨n - 1, by omega⟩
    rw [Function.iterate_succ_apply]
    exact Function.iterate_fixed (by revert st; decide) m

/-! ## C8: what the per-frame loop blocks on -/

theorem blocksOnly_bodySkeleton : blocksOnlyOn bodySkeleton false := by
  intro f
  simp only [bodySkeleton]
  decide

theorem blocksOnly_body3texture : blocksOnlyOn body3texture false := by
  intro f
  simp only [body3texture]
  decide

theorem blocksOnly_body12 : blocksOnlyOn body12 false := by
  intro f
  simp only [body12]
  decide

theorem blocksOnly_body05 : blocksOnlyOn body05 false := by
  intro f
  simp only [body05]
  by_cases h : f.glError = 0
  · rw [if_pos h]; decide
  · rw [if_neg h]; decide

theorem blocksOnly_body07 : blocksOnlyOn body07 false := by
  intro f
  simp only [body07]
  by_cases h : f.glError = 0
  · rw [if_pos h]; decide
  · rw [if_neg h]; decide

theorem blocksOnly_body08 : blocksOnlyOn body08 false := by
  intro f
  simp only [body08]
  by_cases h : f.glError = 0
  · rw [if_pos h]; decide
  · rw [if_neg h]; decide

theorem blocksOnly_body09 : blocksOnlyOn body09 false := by
  intro f
  simp only [body09]
  by_cases h : f.glError = 0
  · rw [if_pos h]; decide
  · rw [if_neg h]; decide

theorem blocksOnly_body11 : blocksOnlyOn body11 false := by
  intro f
  simp only [body11]
  by_cases h : f.glError = 0
  · rw [if_pos h]; decide
  · rw [if_neg h]; decide

theorem blocksOnly_body13 : blocksOnlyOn body13 true := by
  intro f
  simp only [body13]
  by_cases h : f.glError = 0
  · rw [if_pos h]; decide
  · rw [if_neg h]; decide

theorem blocksOnly_body10 : blocksOnlyOn body10 true := by
  intro f
  simp only [body10]
  by_cases h : f.glError = 0 <;> by_cases hq : f.queryAvail
  · rw [if_pos h, if_pos hq]; decide
  · rw [if_pos h, if_neg hq]; decide
  · rw [if_neg h, if_pos hq]; decide
  · rw [if_neg h, if_neg hq]; decide

/-- C8 (amended).  In every example, the only calls of the per-frame
loop body that can block the calling thread are the windowing system's
event poll and the presentation swap — except that
`10queries_conditional_render.cpp` and `13compute_shader_nbody.cpp`
additionally read a timer-query result with
`glGetQueryObjectui64v(…, GL_QUERY_RESULT, …)` inside the loop, a call
that waits until the GPU query result is available (in 13 for the query
issued the same frame; in 10 for the query issued `querycount` frames
earlier, guarded by `glIsQuery`). -/
theorem c8_loop_blocks_on_poll_swap_and_query_reads :
    blocksOnlyOn bodySkeleton false ∧
    blocksOnlyOn body3texture false ∧
    blocksOnlyOn body05 false ∧
    blocksOnlyOn body07 false ∧
    blocksOnlyOn body08 false ∧
    blocksOnlyOn body09 false ∧
    blocksOnlyOn body10 true ∧
    blocksOnlyOn body11 false ∧
    blocksOnlyOn body12 false ∧
    blocksOnlyOn body13 true ∧
    Ev.queryWait ∈ body13 quietFrame ∧
    Ev.queryWait ∈ body10 ⟨false, false, false, false, true, 0⟩ :=
  ⟨blocksOnly_bodySkeleton, blocksOnly_body3texture, blocksOnly_body05,
   blocksOnly_body07, blocksOnly_body08, blocksOnly_body09,
   blocksOnly_body10, blocksOnly_body11, blocksOnly_body12,
   blocksOnly_body13, by decide, by decide⟩

/-- C8, counterexample to the claim as stated: the loop body of
`13compute_shader_nbody.cpp` contains, on the no-error path, a
`GL_QUERY_RESULT` read of the frame's own timer query — a blocking call
that is neither the event poll nor the swap, and precisely a wait on a
GPU query result. -/
theorem c8_counterexample_loop_waits_on_query_result :
    Ev.queryWait ∈ body13 quietFrame ∧
    Ev.queryWait.blocks = true ∧
    Ev.queryWait.waitsOnQueryResult = true ∧
    Ev.queryWait ≠ Ev.poll ∧ Ev.queryWait ≠ Ev.swap := by decide

/-! ## C9: the buffer-mapping example's physics invariants -/

theorem updateParticle_spec (len : Vec3 ℚ → ℚ) (r1 r2 r3 : ℚ) (p : Particle)
    (h10 : 0 ≤ r1) (h11 : r1 ≤ 1) (h20 : 0 ≤ r2) (h21 : r2 ≤ 1)
    (h30 : 0 ≤ r3) (h31 : r3 ≤ 1) :
    -30 ≤ ((updateParticle len r1 r2 r3 p).1).pos.y ∧
    ((updateParticle len r1 r2 r3 p).2 = true →
      ((updateParticle len r1 r2 r3 p).1).vel = ⟨0, 0, 0⟩ ∧
      -5/2 ≤ ((updateParticle len r1 r2 r3 p).1).pos.x ∧
      ((updateParticle len r1 r2 r3 p).1).pos.x ≤ 5/2 ∧
      35/2 ≤ ((updateParticle len r1 r2 r3 p).1).pos.y ∧
      ((updateParticle len r1 r2 r3 p).1).pos.y ≤ 45/2 ∧
      -5/2 ≤ ((updateParticle len r1 r2 r3 p).1).pos.z ∧
      ((updateParticle len r1 r2 r3 p).1).pos.z ≤ 5/2) := by
  simp only [updateParticle]
  split_ifs with hy
  · constructor
    · show (-30 : ℚ) ≤ 20 + 5 * (1 / 2 - r2)
      linarith
    · intro _
      refine ⟨rfl, ?_, ?_, ?_, ?_, ?_, ?_⟩
      · show (-5 / 2 : ℚ) ≤ 0 + 5 * (1 / 2 - r1); linarith
      · show (0 : ℚ) + 5 * (1 / 2 - r1) ≤ 5 / 2; linarith
      · show (35 / 2 : ℚ) ≤ 20 + 5 * (1 / 2 - r2); linarith
      · show (20 : ℚ) + 5 * (1 / 2 - r2) ≤ 45 / 2; linarith
      · show (-5 / 2 : ℚ) ≤ 0 + 5 * (1 / 2 - r3); linarith
      · show (0 : ℚ) + 5 * (1 / 2 - r3) ≤ 5 / 2; linarith
  · refine ⟨not_lt.mp hy, fun hfalse => absurd hfalse (by decide)⟩

/-- C9.  After one pass of the per-frame CPU physics loop of
`08map_buffer.cpp` (with each `float(std::rand())/RAND_MAX` draw in
`[0,1]`), every particle's position satisfies `y ≥ -30`, and every
particle that took the reset branch this pass has velocity exactly
`(0,0,0)` and position inside the box
`[-2.5,2.5] × [17.5,22.5] × [-2.5,2.5]`. -/
theorem c9_physics_update_invariants (len : Vec3 ℚ → ℚ)
    (inputs : List ((ℚ × ℚ × ℚ) × Particle))
    (hr : ∀ q ∈ inputs, 0 ≤ q.1.1 ∧ q.1.1 ≤ 1 ∧ 0 ≤ q.1.2.1 ∧ q.1.2.1 ≤ 1 ∧
      0 ≤ q.1.2.2 ∧ q.1.2.2 ≤ 1) :
    ∀ pr ∈ updateAllParticles len inputs,
      -30 ≤ pr.1.pos.y ∧
      (pr.2 = true → pr.1.vel = ⟨0, 0, 0⟩ ∧
        -5/2 ≤ pr.1.pos.x ∧ pr.1.pos.x ≤ 5/2 ∧
        35/2 ≤ pr.1.pos.y ∧ pr.1.pos.y ≤ 45/2 ∧
        -5/2 ≤ pr.1.pos.z ∧ pr.1.pos.z ≤ 5/2) := by
  intro pr hpr
  obtain ⟨q, hq, rfl⟩ := List.mem_map.mp hpr
  obtain ⟨a1, a2, b1, b2, d1, d2⟩ := hr q hq
  exact updateParticle_spec len q.1.1 q.1.2.1 q.1.2.2 q.2 a1 a2 b1 b2 d1 d2

/-- C9, witness: a particle dropped at `y = -100` with the zero random
draws is reset into the box with zero velocity. -/
theorem c9_physics_update_invariants_witness :
    -30 ≤ ((updateParticle (fun _ => 0) 0 0 0
        ⟨⟨0, -100, 0⟩, ⟨0, 0, 0⟩⟩).1).pos.y ∧
    ((updateParticle (fun _ => 0) 0 0 0 ⟨⟨0, -100, 0⟩, ⟨0, 0, 0⟩⟩).2 = true →
      ((updateParticle (fun _ => 0) 0 0 0
          ⟨⟨0, -100, 0⟩, ⟨0, 0, 0⟩⟩).1).vel = ⟨0, 0, 0⟩ ∧
      -5/2 ≤ ((updateParticle (fun _ => 0) 0 0 0
          ⟨⟨0, -100, 0⟩, ⟨0, 0, 0⟩⟩).1).pos.x ∧
      ((updateParticle (fun _ => 0) 0 0 0
          ⟨⟨0, -100, 0⟩, ⟨0, 0, 0⟩⟩).1).pos.x ≤ 5/2 ∧
      35/2 ≤ ((updateParticle (fun _ => 0) 0 0 0
          ⟨⟨0, -100, 0⟩, ⟨0, 0, 0⟩⟩).1).pos.y ∧
      ((updateParticle (fun _ => 0) 0 0 0
          ⟨⟨0, -100, 0⟩, ⟨0, 0, 0⟩⟩).1).pos.y ≤ 45/2 ∧
      -5/2 ≤ ((updateParticle (fun _ => 0) 0 0 0
          ⟨⟨0, -100, 0⟩, ⟨0, 0, 0⟩⟩).1).pos.z ∧
      ((updateParticle (fun _ => 0) 0 0 0
          ⟨⟨0, -100, 0⟩, ⟨0, 0, 0⟩⟩).1).pos.z ≤ 5/2) := by
  have h := c9_physics_update_invariants (fun _ => 0)
    [((0, 0, 0), ⟨⟨0, -100, 0⟩, ⟨0, 0, 0⟩⟩)]
    (by intro q hq; simp only [List.mem_singleton] at hq; subst hq; norm_num)
  exact h _ (by simp [updateAllParticles])

/-! ## C10: the chunk index buffer stays in range -/

theorem length_ite_faceQuad_dvd (c : Prop) [Decidable c] (pos c1 c2 c3 c4 n : Vec3 ℚ) :
    8 ∣ (if c then faceQuad pos c1 c2 c3 c4 n else []).length := by
  split <;> simp [faceQuad]

theorem blockQuads_length_dvd (solid : ℤ × ℤ × ℤ → Bool) (p : ℤ × ℤ × ℤ) :
    8 ∣ (blockQuads solid p).length := by
  by_cases h : solid p
  · simp only [blockQuads, if_pos h, List.length_append]
    repeat' apply Nat.dvd_add
    all_goals apply length_ite_faceQuad_dvd
  · simp [blockQuads, if_neg h]

theorem length_flatMap_dvd {α β : Type} (k : Nat) (f : α → List β)
    (l : List α) (h : ∀ a, k ∣ (f a).length) : k ∣ (l.flatMap f).length := by
  induction l with
  | nil => simp
  | cons a rest ih =>
      rw [List.flatMap_cons, List.length_append]
      exact Nat.dvd_add (h a) ih

theorem chunkVertexData_length_dvd (solid : ℤ × ℤ × ℤ → Bool)
    (chunksize : Nat) (off : ℤ × ℤ × ℤ) :
    8 ∣ (chunkVertexData solid chunksize off).length := by
  unfold chunkVertexData
  refine length_flatMap_dvd 8 _ _ fun x => ?_
  refine length_flatMap_dvd 8 _ _ fun y => ?_
  refine length_flatMap_dvd 8 _ _ fun z => ?_
  exact blockQuads_length_dvd solid _

theorem chunkIndexData_length (q : Nat) :
    (chunkIndexData q).length = 6 * q := by
  unfold chunkIndexData
  induction q with
  | zero => rfl
  | succ n ih =>
      rw [List.range_succ, List.flatMap_append, List.length_append, ih]
      simp
      omega

theorem chunkIndexData_lt (q : Nat) :
    ∀ e ∈ chunkIndexData q, e < 4 * q := by
  intro e he
  unfold chunkIndexData at he
  obtain ⟨i, hi, hee⟩ := List.mem_flatMap.mp he
  have hiq : i < q := List.mem_range.mp hi
  simp only [List.mem_cons, List.mem_singleton, List.not_mem_nil, or_false] at hee
  rcases hee with rfl | rfl | rfl | rfl | rfl | rfl <;> omega

/-- C10.  For any chunk (any solidity function, chunk size and offset):
the vertex data is a whole number of 8-entry quads; the index buffer has
exactly `6*quadcount` entries; the vertex buffer holds `4*quadcount`
drawable vertices; and every index entry is smaller than that vertex
count, so drawing `6*quadcount` indexed elements never references a
vertex out of range. -/
theorem c10_chunk_index_buffer_in_range (solid : ℤ × ℤ × ℤ → Bool)
    (chunksize : Nat) (off : ℤ × ℤ × ℤ) :
    8 ∣ (chunkVertexData solid chunksize off).length ∧
    (chunkIndexData (chunkQuadcount (chunkVertexData solid chunksize off))).length
      = 6 * chunkQuadcount (chunkVertexData solid chunksize off) ∧
    chunkVertexCount (chunkVertexData solid chunksize off)
      = 4 * chunkQuadcount (chunkVertexData solid chunksize off) ∧
    ∀ e ∈ chunkIndexData (chunkQuadcount (chunkVertexData solid chunksize off)),
      e < chunkVertexCount (chunkVertexData solid chunksize off) := by
  obtain ⟨m, hm⟩ := chunkVertexData_length_dvd solid chunksize off
  refine ⟨⟨m, hm⟩, chunkIndexData_length _, ?_, ?_⟩
  · unfold chunkVertexCount chunkQuadcount
    rw [hm]
    omega
  · intro e he
    have h4 := chunkIndexData_lt _ e he
    unfold chunkQuadcount at h4
    unfold chunkVertexCount
    rw [hm] at h4 ⊢
    omega

end OpenGLExamples
